import Mathlib

/-!
# Desktop duplication capture session

A shallow embedding of `src/native/screenshot/src/DesktopDuplicator.{h,cpp}`.

The class `DesktopDuplicator` becomes a record of its data members; every member
function becomes a pure function from the record (and the answers of the graphics
driver for the calls the function makes) to an `Outcome`: the value returned or the
exception thrown, the record afterwards, and the list of calls made on GPU objects.

Driver model.  The Direct3D / DXGI objects are outside the repository.  Each call on
them is answered by a field of `InitDriver` / `CaptureDriver`.  The one convention
assumed of the driver is the COM out-parameter rule: a call that returns a
succeeding `HRESULT` stores a non-null interface pointer, a failing call stores null
(`comOut`).  Everything else (which `HRESULT`, which rectangle, which row pitch) is
arbitrary.

Arithmetic.  `int` and `LONG` are 32-bit: a signed result is reduced with `wrapInt32`,
a conversion to `UINT` with `toUInt32`, a conversion to `size_t` with `toSizeT`, and the
`uint64_t` counters count modulo `2 ^ 64`.  Memory exhaustion is not modelled; the one
allocation failure that the arithmetic itself forces, a `resize` beyond
`vector::max_size()`, is (`Error.lengthError`).
-/

/-! ## Machine integers and Windows constants -/

/-- The Windows `HRESULT` (a 32-bit signed `long`). -/
abbrev HRESULT := Int

/-- Address of a live COM object. -/
abbrev Handle := Nat

/-- An interface pointer; `none` is `nullptr`. -/
abbrev Ptr := Option Handle

/-- The `FAILED(hr)` test of `winerror.h`: the severity bit is set. -/
def FAILED (hr : HRESULT) : Bool := decide (hr < 0)

/-- Value `0x887A0027` of `dxgi.h` as a signed 32-bit `HRESULT`. -/
def DXGI_ERROR_WAIT_TIMEOUT : HRESULT := -2005270489

/-- Value `0x887A0026` of `dxgi.h` as a signed 32-bit `HRESULT`. -/
def DXGI_ERROR_ACCESS_LOST : HRESULT := -2005270490

/-- Value `0x887A0002` of `dxgi.h` as a signed 32-bit `HRESULT`. -/
def DXGI_ERROR_NOT_FOUND : HRESULT := -2005270526

/-- Success code of `winerror.h`. -/
def S_OK : HRESULT := 0

/-- Two-complement reduction of a mathematical integer to a 32-bit `int` / `LONG`. -/
def wrapInt32 (x : Int) : Int := (x + 2 ^ 31) % 2 ^ 32 - 2 ^ 31

/-- Conversion of an `int` to `UINT`. -/
def toUInt32 (x : Int) : Nat := (x % 2 ^ 32).toNat

/-- Conversion of an `int` to the 64-bit `size_t`. -/
def toSizeT (x : Int) : Nat := (x % 2 ^ 64).toNat

/-- Post-increment of a `uint64_t` counter. -/
def incr64 (n : Nat) : Nat := (n + 1) % 2 ^ 64

/-- Largest size a `std::vector<uint8_t>` accepts (`PTRDIFF_MAX` of a 64-bit build);
`resize` beyond it throws `std::length_error`. -/
def vectorMaxSize : Nat := 2 ^ 63 - 1

/-- COM out-parameter rule: the pointer a call stores through its out-parameter. -/
def comOut (hr : HRESULT) (obj : Handle) : Ptr :=
  if FAILED hr then none else some obj

/-! ## Errors -/

/-- The call sites of `THROW_IF_FAILED(hr, msg)`. -/
inductive Step where
  | createDevice
  | queryDXGIDevice
  | getAdapter
  | getFactory
  | enumOutputs
  | queryOutput1
  | getDesc
  | duplicateOutput
  | createStagingTexture
  | queryTexture
  | mapStaging
  | releaseFrame
  deriving DecidableEq, Repr

/-- The `msg` argument of `THROW_IF_FAILED` at each call site. -/
def Step.msg : Step → String
  | .createDevice => "Failed to create D3D11 Device."
  | .queryDXGIDevice => "Failed to query IDXGIDevice."
  | .getAdapter => "Failed to get IDXGIAdapter."
  | .getFactory => "Failed to get IDXGIFactory1."
  | .enumOutputs => "Failed to enumerate output. Check outputIdx."
  | .queryOutput1 => "Failed to query IDXGIOutput1."
  | .getDesc => "Failed to get output description."
  | .duplicateOutput =>
    "Failed to duplicate output. Ensure WDDM 1.2+ driver and no other duplication apps."
  | .createStagingTexture => "Failed to create staging texture."
  | .queryTexture => "Failed to query ID3D11Texture2D from desktop resource."
  | .mapStaging => "Failed to map staging texture."
  | .releaseFrame => "Failed to release frame."

/-- The exceptions the class throws (all `std::exception`s, caught by its handlers). -/
inductive Error where
  /-- First guard of `CaptureFrame`. -/
  | notInitialized
  /-- Second guard of `CaptureFrame`: the access-lost flag is set. -/
  | accessLost
  /-- Thrown when `AcquireNextFrame` answers `DXGI_ERROR_ACCESS_LOST`. -/
  | accessLostAcquire
  /-- Thrown when `AcquireNextFrame` fails otherwise. -/
  | acquireFailed (hr : HRESULT)
  /-- Thrown by `THROW_IF_FAILED(hr, msg)`. -/
  | hresult (step : Step) (hr : HRESULT)
  /-- Thrown by `CreateStagingTexture` when the device pointer is null. -/
  | deviceNotCreated
  /-- The `std::length_error` of `std::vector::resize`. -/
  | lengthError
  deriving DecidableEq, Repr

/-- The `what()` text of each exception. -/
def Error.what : Error → String
  | .notInitialized => "Duplicator not initialized. Call Initialize() first."
  | .accessLost => "Desktop duplication access lost. Call Reinitialize()."
  | .accessLostAcquire =>
    "Desktop duplication access lost (DXGI_ERROR_ACCESS_LOST). Call Reinitialize()."
  | .acquireFailed hr => "Failed to acquire next frame. HRESULT: " ++ toString hr
  | .hresult step hr => step.msg ++ " HRESULT: " ++ toString hr
  | .deviceNotCreated => "D3D11 device not created"
  | .lengthError => "vector too long"

/-- Value returned or exception thrown. -/
inductive Result (α : Type) where
  | ok (value : α)
  | error (e : Error)
  deriving DecidableEq, Repr

/-! ## Calls on GPU objects -/

/-- The COM objects the class holds or touches. -/
inductive Resource where
  | device
  | context
  | duplication
  | desktopTexture
  | stagingTexture
  | dxgiDevice
  | adapter
  | factory
  | output
  | output1
  | desktopResource
  deriving DecidableEq, Repr

/-- One call on a GPU object, in program order. -/
inductive Event where
  | d3d11CreateDevice
  | queryDXGIDevice
  | getAdapter
  | getFactory
  | enumOutputs (index : Nat)
  | queryOutput1
  | getDesc
  | duplicateOutput
  | createTexture2D (width height : Nat)
  | acquireNextFrame (timeoutMs : Nat)
  | queryTexture
  | copyResource
  | map
  | unmap
  | releaseFrame
  /-- The `Release()` inside `SAFE_RELEASE(p)`. -/
  | release (r : Resource)
  deriving DecidableEq, Repr

/-- The calls that are made on the duplication channel `m_pDXGIOutputDuplication`. -/
def Event.onChannel : Event → Bool
  | .acquireNextFrame _ => true
  | .releaseFrame => true
  | .release .duplication => true
  | _ => false

/-- The macro `SAFE_RELEASE(p)`: the call it makes; the pointer is null afterwards. -/
def SAFE_RELEASE (r : Resource) (p : Ptr) : List Event :=
  match p with
  | some _ => [Event.release r]
  | none => []

/-! ## Data model -/

/-- The `struct CapturedFrame`. -/
structure CapturedFrame where
  pixels : List UInt8
  width : Int
  height : Int
  stride : Int
  deriving DecidableEq

/-- The data members of `class DesktopDuplicator`. -/
structure DesktopDuplicator where
  m_pD3D11Device : Ptr
  m_pD3D11DeviceContext : Ptr
  m_pDXGIOutputDuplication : Ptr
  m_pDesktopTexture : Ptr
  m_pStagingTexture : Ptr
  m_OutputWidth : Int
  m_OutputHeight : Int
  m_OutputIndex : Int
  m_IsInitialized : Bool
  m_AccessLost : Bool
  m_TotalFramesCaptured : Nat
  m_TotalErrors : Nat
  m_LastCaptureTime : Int
  m_Frequency : Int
  deriving DecidableEq, Repr

/-- What a member function did: its result, the object afterwards, the calls made. -/
structure Outcome (α : Type) where
  result : Result α
  state : DesktopDuplicator
  trace : List Event

/-- The `RECT` of `DXGI_OUTPUT_DESC::DesktopCoordinates`. -/
structure RECT where
  left : Int
  top : Int
  right : Int
  bottom : Int
  deriving DecidableEq, Repr

/-- Answers of one output of the adapter, by the calls `Initialize` makes on it. -/
structure OutputDriver where
  /-- `IDXGIFactory1::EnumOutputs(index, ..)`. -/
  enumOutputs : HRESULT
  /-- `QueryInterface(IDXGIOutput1)`. -/
  queryOutput1 : HRESULT
  /-- `IDXGIOutput1::GetDesc`. -/
  getDesc : HRESULT
  desktopCoordinates : RECT
  /-- `IDXGIOutput1::DuplicateOutput`. -/
  duplicateOutput : HRESULT
  duplication : Handle

/-- Answers of the driver to the calls of one `Initialize`. -/
structure InitDriver where
  /-- `D3D11CreateDevice`. -/
  createDevice : HRESULT
  device : Handle
  context : Handle
  /-- `QueryInterface(IDXGIDevice)`. -/
  queryDXGIDevice : HRESULT
  /-- `IDXGIDevice::GetParent(IDXGIAdapter)`. -/
  getAdapter : HRESULT
  /-- `IDXGIAdapter::GetParent(IDXGIFactory1)`. -/
  getFactory : HRESULT
  /-- The outputs, by the `UINT` index passed to `EnumOutputs`. -/
  output : Nat → OutputDriver
  /-- `ID3D11Device::CreateTexture2D`, by the `Width` and `Height` of the description. -/
  createTexture2D : Nat → Nat → HRESULT
  stagingTexture : Handle

/-- Answers of the driver to the calls of one `CaptureFrame`. -/
structure CaptureDriver where
  /-- `IDXGIOutputDuplication::AcquireNextFrame`. -/
  acquire : HRESULT
  resource : Handle
  /-- `QueryInterface(ID3D11Texture2D)`. -/
  queryTexture : HRESULT
  texture : Handle
  /-- `ID3D11DeviceContext::Map`. -/
  map : HRESULT
  /-- `D3D11_MAPPED_SUBRESOURCE::RowPitch`, a `UINT`. -/
  rowPitch : Nat
  /-- The bytes behind `D3D11_MAPPED_SUBRESOURCE::pData`, by offset. -/
  pData : Nat → UInt8
  /-- `IDXGIOutputDuplication::ReleaseFrame` (the call of the try block). -/
  releaseFrame : HRESULT
  /-- `QueryPerformanceCounter`. -/
  clock : Int

/-! ## Member functions -/

/-- The constructor `DesktopDuplicator::DesktopDuplicator()`; the two arguments are the
readings of `QueryPerformanceFrequency` and `QueryPerformanceCounter`. -/
def DesktopDuplicator.construct (frequency now : Int) : DesktopDuplicator where
  m_pD3D11Device := none
  m_pD3D11DeviceContext := none
  m_pDXGIOutputDuplication := none
  m_pDesktopTexture := none
  m_pStagingTexture := none
  m_OutputWidth := 0
  m_OutputHeight := 0
  m_OutputIndex := 0
  m_IsInitialized := false
  m_AccessLost := false
  m_TotalFramesCaptured := 0
  m_TotalErrors := 0
  m_LastCaptureTime := now
  m_Frequency := frequency

/-- The accessor `int GetWidth() const`. -/
def GetWidth (s : DesktopDuplicator) : Int := s.m_OutputWidth

/-- The accessor `int GetHeight() const`. -/
def GetHeight (s : DesktopDuplicator) : Int := s.m_OutputHeight

/-- The member `bool IsInitialized() const`. -/
def IsInitialized (s : DesktopDuplicator) : Bool :=
  s.m_IsInitialized && !s.m_AccessLost && s.m_pDXGIOutputDuplication.isSome

/-- The member `void ReleaseResources()`. -/
def ReleaseResources (s : DesktopDuplicator) : Outcome Unit where
  result := .ok ()
  state :=
    { s with
      m_pDXGIOutputDuplication := none
      m_pStagingTexture := none
      m_pDesktopTexture := none
      m_pD3D11DeviceContext := none
      m_pD3D11Device := none
      m_OutputWidth := 0
      m_OutputHeight := 0
      m_IsInitialized := false
      m_AccessLost := false }
  trace :=
    SAFE_RELEASE .duplication s.m_pDXGIOutputDuplication
      ++ SAFE_RELEASE .stagingTexture s.m_pStagingTexture
      ++ SAFE_RELEASE .desktopTexture s.m_pDesktopTexture
      ++ SAFE_RELEASE .context s.m_pD3D11DeviceContext
      ++ SAFE_RELEASE .device s.m_pD3D11Device

/-- The member `void CreateStagingTexture()`. -/
def CreateStagingTexture (s : DesktopDuplicator) (d : InitDriver) : Outcome Unit :=
  match s.m_pD3D11Device with
  | none => ⟨.error .deviceNotCreated, s, []⟩
  | some _ =>
    let w := toUInt32 s.m_OutputWidth
    let h := toUInt32 s.m_OutputHeight
    let hr := d.createTexture2D w h
    let s1 := { s with m_pStagingTexture := comOut hr d.stagingTexture }
    if FAILED hr then
      ⟨.error (.hresult .createStagingTexture hr), s1, [.createTexture2D w h]⟩
    else
      ⟨.ok (), s1, [.createTexture2D w h]⟩

/-- The `try` block of `Initialize` (lines 34-102), entered after `ReleaseResources()`
and `m_OutputIndex = outputIdx`. -/
def InitializeTry (s : DesktopDuplicator) (outputIdx : Int) (d : InitDriver) :
    Outcome Unit :=
  -- 1. D3D11CreateDevice(.., &m_pD3D11Device, nullptr, &m_pD3D11DeviceContext)
  let s1 := { s with
    m_pD3D11Device := comOut d.createDevice d.device
    m_pD3D11DeviceContext := comOut d.createDevice d.context }
  let t1 := [Event.d3d11CreateDevice]
  if FAILED d.createDevice then
    ⟨.error (.hresult .createDevice d.createDevice), s1, t1⟩
  else
  -- 2. m_pD3D11Device->QueryInterface(IDXGIDevice)
  let t2 := t1 ++ [Event.queryDXGIDevice]
  if FAILED d.queryDXGIDevice then
    ⟨.error (.hresult .queryDXGIDevice d.queryDXGIDevice), s1, t2⟩
  else
  -- pDXGIDevice->GetParent(IDXGIAdapter); SAFE_RELEASE(pDXGIDevice)
  let t3 := t2 ++ [Event.getAdapter, Event.release .dxgiDevice]
  if FAILED d.getAdapter then
    ⟨.error (.hresult .getAdapter d.getAdapter), s1, t3⟩
  else
  -- pDXGIAdapter->GetParent(IDXGIFactory1); SAFE_RELEASE(pDXGIAdapter)
  let t4 := t3 ++ [Event.getFactory, Event.release .adapter]
  if FAILED d.getFactory then
    ⟨.error (.hresult .getFactory d.getFactory), s1, t4⟩
  else
  -- 3. pDXGIFactory->EnumOutputs(outputIdx, ..); SAFE_RELEASE(pDXGIFactory)
  let i := toUInt32 outputIdx
  let o := d.output i
  let t5 := t4 ++ [Event.enumOutputs i, Event.release .factory]
  if FAILED o.enumOutputs then
    ⟨.error (.hresult .enumOutputs o.enumOutputs), s1, t5⟩
  else
  -- pDXGIOutput->QueryInterface(IDXGIOutput1); SAFE_RELEASE(pDXGIOutput)
  let t6 := t5 ++ [Event.queryOutput1, Event.release .output]
  if FAILED o.queryOutput1 then
    ⟨.error (.hresult .queryOutput1 o.queryOutput1), s1, t6⟩
  else
  -- pDXGIOutput1->GetDesc(&outputDesc)
  let t7 := t6 ++ [Event.getDesc]
  if FAILED o.getDesc then
    ⟨.error (.hresult .getDesc o.getDesc), s1, t7⟩
  else
  let rc := o.desktopCoordinates
  let s2 := { s1 with
    m_OutputWidth := wrapInt32 (rc.right - rc.left)
    m_OutputHeight := wrapInt32 (rc.bottom - rc.top) }
  -- pDXGIOutput1->DuplicateOutput(m_pD3D11Device, &m_pDXGIOutputDuplication);
  -- SAFE_RELEASE(pDXGIOutput1)
  let s3 := { s2 with m_pDXGIOutputDuplication := comOut o.duplicateOutput o.duplication }
  let t8 := t7 ++ [Event.duplicateOutput, Event.release .output1]
  if FAILED o.duplicateOutput then
    ⟨.error (.hresult .duplicateOutput o.duplicateOutput), s3, t8⟩
  else
  -- 4. CreateStagingTexture()
  let c := CreateStagingTexture s3 d
  match c.result with
  | .error e => ⟨.error e, c.state, t8 ++ c.trace⟩
  | .ok _ =>
    ⟨.ok (), { c.state with m_IsInitialized := true, m_AccessLost := false },
      t8 ++ c.trace⟩

/-- The member `void Initialize(int outputIdx)`. -/
def Initialize (s : DesktopDuplicator) (outputIdx : Int) (d : InitDriver) :
    Outcome Unit :=
  let r := ReleaseResources s
  let b := InitializeTry { r.state with m_OutputIndex := outputIdx } outputIdx d
  match b.result with
  | .ok _ => ⟨.ok (), b.state, r.trace ++ b.trace⟩
  | .error e =>
    -- catch (const std::exception&): ReleaseResources(); m_IsInitialized = false; throw;
    let c := ReleaseResources b.state
    ⟨.error e, { c.state with m_IsInitialized := false }, r.trace ++ b.trace ++ c.trace⟩

/-- The member `void Reinitialize()`: `Initialize(m_OutputIndex)`, rethrowing. -/
def Reinitialize (s : DesktopDuplicator) (d : InitDriver) : Outcome Unit :=
  let b := Initialize s s.m_OutputIndex d
  match b.result with
  | .ok _ => ⟨.ok (), b.state, b.trace⟩
  | .error e => ⟨.error e, b.state, b.trace⟩

/-- How the `try` block of `CaptureFrame` is left: the outcome and the local
`pDesktopResource` at that point. -/
structure CaptureTry where
  outcome : Outcome (Option CapturedFrame)
  pDesktopResource : Ptr

/-- The `try` block of `CaptureFrame` (lines 123-176). -/
def CaptureFrameTry (s : DesktopDuplicator) (timeoutMs : Int) (d : CaptureDriver) :
    CaptureTry :=
  -- hr = m_pDXGIOutputDuplication->AcquireNextFrame(timeoutMs, &frameInfo, &pDesktopResource)
  let hr := d.acquire
  let pRes := comOut hr d.resource
  let t0 := [Event.acquireNextFrame (toUInt32 timeoutMs)]
  if hr = DXGI_ERROR_WAIT_TIMEOUT then
    ⟨⟨.ok none, s, t0⟩, pRes⟩
  else if hr = DXGI_ERROR_ACCESS_LOST then
    ⟨⟨.error .accessLostAcquire, { s with m_AccessLost := true },
      t0 ++ SAFE_RELEASE .desktopResource pRes⟩, none⟩
  else if FAILED hr then
    ⟨⟨.error (.acquireFailed hr), { s with m_TotalErrors := incr64 s.m_TotalErrors },
      t0 ++ SAFE_RELEASE .desktopResource pRes⟩, none⟩
  else
  -- pDesktopResource->QueryInterface(ID3D11Texture2D, &m_pDesktopTexture);
  -- SAFE_RELEASE(pDesktopResource)
  let s1 := { s with m_pDesktopTexture := comOut d.queryTexture d.texture }
  let t1 := t0 ++ [Event.queryTexture] ++ SAFE_RELEASE .desktopResource pRes
  if FAILED d.queryTexture then
    ⟨⟨.error (.hresult .queryTexture d.queryTexture), s1, t1⟩, none⟩
  else
  -- CopyResource(m_pStagingTexture, m_pDesktopTexture); SAFE_RELEASE(m_pDesktopTexture)
  let t2 := t1 ++ [Event.copyResource] ++ SAFE_RELEASE .desktopTexture s1.m_pDesktopTexture
  let s2 := { s1 with m_pDesktopTexture := none }
  -- Map(m_pStagingTexture, 0, D3D11_MAP_READ, 0, &mappedResource)
  let t3 := t2 ++ [Event.map]
  if FAILED d.map then
    ⟨⟨.error (.hresult .mapStaging d.map), s2, t3⟩, none⟩
  else
  let width := s2.m_OutputWidth
  let height := s2.m_OutputHeight
  let stride := wrapInt32 (d.rowPitch : Int)
  -- frame->pixels.resize(frame->height * frame->stride); memcpy(..)
  let count := toSizeT (wrapInt32 (height * stride))
  if vectorMaxSize < count then
    ⟨⟨.error .lengthError, s2, t3⟩, none⟩
  else
  let frame : CapturedFrame :=
    { pixels := (List.range count).map d.pData, width := width, height := height,
      stride := stride }
  -- Unmap(m_pStagingTexture, 0); hr = m_pDXGIOutputDuplication->ReleaseFrame()
  let t4 := t3 ++ [Event.unmap, Event.releaseFrame]
  if FAILED d.releaseFrame then
    ⟨⟨.error (.hresult .releaseFrame d.releaseFrame), s2, t4⟩, none⟩
  else
  -- m_TotalFramesCaptured++; QueryPerformanceCounter(&m_LastCaptureTime)
  let s3 := { s2 with
    m_TotalFramesCaptured := incr64 s2.m_TotalFramesCaptured
    m_LastCaptureTime := d.clock }
  ⟨⟨.ok (some frame), s3, t4⟩, none⟩

/-- The `catch (const std::exception&)` block of `CaptureFrame` (lines 178-194), entered
with the object and the local `pDesktopResource` as the `try` block left them. -/
def CaptureFrameCatch (s : DesktopDuplicator) (pDesktopResource : Ptr) (e : Error)
    (t : List Event) : Outcome (Option CapturedFrame) :=
  let t1 := t ++ SAFE_RELEASE .desktopResource pDesktopResource
  let t2 := t1 ++ SAFE_RELEASE .desktopTexture s.m_pDesktopTexture
  let s1 := { s with m_pDesktopTexture := none }
  -- if (m_pDXGIOutputDuplication) m_pDXGIOutputDuplication->ReleaseFrame();
  let t3 := if s1.m_pDXGIOutputDuplication.isSome then t2 ++ [Event.releaseFrame] else t2
  -- m_TotalErrors++; throw;
  ⟨.error e, { s1 with m_TotalErrors := incr64 s1.m_TotalErrors }, t3⟩

/-- The member `std::unique_ptr<CapturedFrame> CaptureFrame(int timeoutMs)`; the
returned `nullptr` is `none`. -/
def CaptureFrame (s : DesktopDuplicator) (timeoutMs : Int) (d : CaptureDriver) :
    Outcome (Option CapturedFrame) :=
  if !s.m_IsInitialized || s.m_pDXGIOutputDuplication.isNone
      || s.m_pD3D11DeviceContext.isNone || s.m_pStagingTexture.isNone then
    ⟨.error .notInitialized, s, []⟩
  else if s.m_AccessLost then
    ⟨.error .accessLost, s, []⟩
  else
    let b := CaptureFrameTry s timeoutMs d
    match b.outcome.result with
    | .ok _ => b.outcome
    | .error e => CaptureFrameCatch b.outcome.state b.pDesktopResource e b.outcome.trace

/-! ## Session states and call sequences -/

/-- The state `Ready`: the object as a successful `Initialize` leaves it.  The flags say
initialized and not lost, the four owned objects are held and no desktop texture is in
flight. -/
def Ready (s : DesktopDuplicator) : Prop :=
  s.m_IsInitialized = true ∧ s.m_AccessLost = false ∧
  s.m_pD3D11Device.isSome = true ∧ s.m_pD3D11DeviceContext.isSome = true ∧
  s.m_pDXGIOutputDuplication.isSome = true ∧ s.m_pStagingTexture.isSome = true ∧
  s.m_pDesktopTexture = none

instance (s : DesktopDuplicator) : Decidable (Ready s) := by
  unfold Ready; infer_instance

/-- The state `AccessLost`: as `Ready`, but with the access-lost flag set. -/
def AccessLost (s : DesktopDuplicator) : Prop :=
  s.m_IsInitialized = true ∧ s.m_AccessLost = true ∧
  s.m_pD3D11Device.isSome = true ∧ s.m_pD3D11DeviceContext.isSome = true ∧
  s.m_pDXGIOutputDuplication.isSome = true ∧ s.m_pStagingTexture.isSome = true ∧
  s.m_pDesktopTexture = none

instance (s : DesktopDuplicator) : Decidable (AccessLost s) := by
  unfold AccessLost; infer_instance

/-- The state `Uninitialized`: both flags clear, no resolution, no object held. -/
def Uninitialized (s : DesktopDuplicator) : Prop :=
  s.m_IsInitialized = false ∧ s.m_AccessLost = false ∧
  s.m_OutputWidth = 0 ∧ s.m_OutputHeight = 0 ∧
  s.m_pD3D11Device = none ∧ s.m_pD3D11DeviceContext = none ∧
  s.m_pDXGIOutputDuplication = none ∧ s.m_pStagingTexture = none ∧
  s.m_pDesktopTexture = none

instance (s : DesktopDuplicator) : Decidable (Uninitialized s) := by
  unfold Uninitialized; infer_instance

/-- Consecutive `CaptureFrame` calls, each on the object the previous one left; the
outcomes in call order. -/
def captureAll (s : DesktopDuplicator) :
    List (Int × CaptureDriver) → List (Outcome (Option CapturedFrame))
  | [] => []
  | c :: rest =>
    let o := CaptureFrame s c.1 c.2
    o :: captureAll o.state rest

/-- A public operation with the driver answers it meets. -/
inductive Op where
  | init (outputIdx : Int) (d : InitDriver)
  | reinit (d : InitDriver)
  | capture (timeoutMs : Int) (d : CaptureDriver)

/-- The object after one operation. -/
def Op.apply (s : DesktopDuplicator) : Op → DesktopDuplicator
  | .init i d => (Initialize s i d).state
  | .reinit d => ( Reinitialize s d).state
  | .capture t d => (CaptureFrame s t d).state

/-- The object after a sequence of operations, first to last. -/
def runOps (s : DesktopDuplicator) (ops : List Op) : DesktopDuplicator :=
  ops.foldl Op.apply s

/-- The objects a caller can hold: constructed, then any operations with any driver
answers; `teardown` is `ReleaseResources`, as the destructor runs it. -/
inductive Reachable : DesktopDuplicator → Prop where
  | fresh (frequency now : Int) : Reachable (DesktopDuplicator.construct frequency now)
  | init {s : DesktopDuplicator} (i : Int) (d : InitDriver) :
      Reachable s → Reachable (Initialize s i d).state
  | reinit {s : DesktopDuplicator} (d : InitDriver) :
      Reachable s → Reachable ( Reinitialize s d).state
  | capture {s : DesktopDuplicator} (t : Int) (d : CaptureDriver) :
      Reachable s → Reachable (CaptureFrame s t d).state
  | teardown {s : DesktopDuplicator} :
      Reachable s → Reachable (ReleaseResources s).state

/-- The two objects agree on everything but the access-lost flag, the counters and the
time stamp: same owned objects, same resolution, same output index, same
initialized flag. -/
def SameSession (s s1 : DesktopDuplicator) : Prop :=
  s1.m_pD3D11Device = s.m_pD3D11Device ∧
  s1.m_pD3D11DeviceContext = s.m_pD3D11DeviceContext ∧
  s1.m_pDXGIOutputDuplication = s.m_pDXGIOutputDuplication ∧
  s1.m_pDesktopTexture = s.m_pDesktopTexture ∧
  s1.m_pStagingTexture = s.m_pStagingTexture ∧
  s1.m_OutputWidth = s.m_OutputWidth ∧
  s1.m_OutputHeight = s.m_OutputHeight ∧
  s1.m_OutputIndex = s.m_OutputIndex ∧
  s1.m_IsInitialized = s.m_IsInitialized ∧
  s1.m_Frequency = s.m_Frequency

instance (s s1 : DesktopDuplicator) : Decidable (SameSession s s1) := by
  unfold SameSession; infer_instance

/-- A failing acquire result other than `Timeout` and `Lost`. -/
def TransientError (hr : HRESULT) : Prop :=
  FAILED hr = true ∧ hr ≠ DXGI_ERROR_WAIT_TIMEOUT ∧ hr ≠ DXGI_ERROR_ACCESS_LOST

instance (hr : HRESULT) : Decidable (TransientError hr) := by
  unfold TransientError; infer_instance

/-- No `Initialize` has succeeded since construction or since the last failed
`Initialize`: the object is fresh, or comes out of a failed `Initialize` or
`Reinitialize`, or out of teardown, with any `CaptureFrame` calls after that. -/
inductive NotYetInitialized : DesktopDuplicator → Prop where
  | fresh (frequency now : Int) :
      NotYetInitialized (DesktopDuplicator.construct frequency now)
  | failedInit (s : DesktopDuplicator) (i : Int) (d : InitDriver) (e : Error) :
      (Initialize s i d).result = .error e → NotYetInitialized (Initialize s i d).state
  | failedReinit (s : DesktopDuplicator) (d : InitDriver) (e : Error) :
      ( Reinitialize s d).result = .error e → NotYetInitialized ( Reinitialize s d).state
  | teardown (s : DesktopDuplicator) : NotYetInitialized (ReleaseResources s).state
  | capture {s : DesktopDuplicator} (t : Int) (d : CaptureDriver) :
      NotYetInitialized s → NotYetInitialized (CaptureFrame s t d).state

/-- The steps of `Initialize` that can fail, in program order. -/
def initSteps : List Step :=
  [.createDevice, .queryDXGIDevice, .getAdapter, .getFactory, .enumOutputs,
    .queryOutput1, .getDesc, .duplicateOutput, .createStagingTexture]

/-- The `HRESULT` the driver answers at each step of `Initialize(outputIdx)`: the value
tested by the `THROW_IF_FAILED` of that step. -/
def initStepHr (d : InitDriver) (outputIdx : Int) : Step → HRESULT
  | .createDevice => d.createDevice
  | .queryDXGIDevice => d.queryDXGIDevice
  | .getAdapter => d.getAdapter
  | .getFactory => d.getFactory
  | .enumOutputs => (d.output (toUInt32 outputIdx)).enumOutputs
  | .queryOutput1 => (d.output (toUInt32 outputIdx)).queryOutput1
  | .getDesc => (d.output (toUInt32 outputIdx)).getDesc
  | .duplicateOutput => (d.output (toUInt32 outputIdx)).duplicateOutput
  | .createStagingTexture =>
    let rc := (d.output (toUInt32 outputIdx)).desktopCoordinates
    d.createTexture2D (toUInt32 (wrapInt32 (rc.right - rc.left)))
      (toUInt32 (wrapInt32 (rc.bottom - rc.top)))
  | _ => S_OK

/-- The first step of `Initialize(outputIdx)` whose answer fails, if any. -/
def firstFailing (d : InitDriver) (outputIdx : Int) : Option Step :=
  initSteps.find? (fun st => FAILED (initStepHr d outputIdx st))

/-- The frame size computation of `CaptureFrame` does not overflow: each machine
conversion in it gives the number meant.  The row pitch (a `UINT`) converted to `int`
is the row pitch, the `int` product `height * stride` is the product, and that
product converted to `size_t` for `resize` is still the product. -/
def FrameSizeExact (height : Int) (rowPitch : Nat) : Prop :=
  wrapInt32 (rowPitch : Int) = rowPitch ∧
  wrapInt32 (height * rowPitch) = height * rowPitch ∧
  (toSizeT (height * rowPitch) : Int) = height * rowPitch

instance (height : Int) (rowPitch : Nat) : Decidable (FrameSizeExact height rowPitch) := by
  unfold FrameSizeExact; infer_instance

/-- The output index recorded by the most recent `Initialize` call of a history, `0` if
there was none (stated from the specification, to compare `Reinitialize` against). -/
def recordedIndex (ops : List Op) : Int :=
  ops.foldl (fun k op => match op with
    | .init i _ => i
    | _ => k) 0

/-! ## Concrete sessions and drivers used by the examples -/

/-- An output of 1920 x 1080 at the desktop origin on which every call succeeds. -/
def output1080p : OutputDriver where
  enumOutputs := S_OK
  queryOutput1 := S_OK
  getDesc := S_OK
  desktopCoordinates := ⟨0, 0, 1920, 1080⟩
  duplicateOutput := S_OK
  duplication := 103

/-- An index past the last output: `EnumOutputs` answers `DXGI_ERROR_NOT_FOUND`. -/
def outputMissing : OutputDriver where
  enumOutputs := DXGI_ERROR_NOT_FOUND
  queryOutput1 := S_OK
  getDesc := S_OK
  desktopCoordinates := ⟨0, 0, 0, 0⟩
  duplicateOutput := S_OK
  duplication := 0

/-- A driver with one 1920 x 1080 output on which every call succeeds. -/
def driverOk : InitDriver where
  createDevice := S_OK
  device := 101
  context := 102
  queryDXGIDevice := S_OK
  getAdapter := S_OK
  getFactory := S_OK
  output := fun i => if i = 0 then output1080p else outputMissing
  createTexture2D := fun _ _ => S_OK
  stagingTexture := 104

/-- A driver whose output reports an empty desktop rectangle while every call
succeeds. -/
def driverEmptyRect : InitDriver where
  createDevice := S_OK
  device := 101
  context := 102
  queryDXGIDevice := S_OK
  getAdapter := S_OK
  getFactory := S_OK
  output := fun _ => { output1080p with desktopCoordinates := ⟨0, 0, 0, 0⟩ }
  createTexture2D := fun _ _ => S_OK
  stagingTexture := 104

/-- The code `E_INVALIDARG` (`0x80070057`) of `winerror.h`. -/
def E_INVALIDARG : HRESULT := -2147024809

/-- As `driverOk`, but `CreateTexture2D` refuses a dimension that is zero or not below
`2 ^ 31`. -/
def driverValidating : InitDriver :=
  { driverOk with
    createTexture2D := fun w h =>
      if w = 0 ∨ h = 0 ∨ 2 ^ 31 ≤ w ∨ 2 ^ 31 ≤ h then E_INVALIDARG else S_OK }

/-- Answers of a capture in which every call succeeds, with a row pitch of 7680. -/
def captureOk : CaptureDriver where
  acquire := S_OK
  resource := 201
  queryTexture := S_OK
  texture := 202
  map := S_OK
  rowPitch := 7680
  pData := fun _ => 0
  releaseFrame := S_OK
  clock := 1000

/-- Answers of a capture whose acquire reports `Timeout`. -/
def captureTimeout : CaptureDriver := { captureOk with acquire := DXGI_ERROR_WAIT_TIMEOUT }

/-- Answers of a capture whose acquire reports `Lost`. -/
def captureLost : CaptureDriver := { captureOk with acquire := DXGI_ERROR_ACCESS_LOST }

/-- Answers of a capture whose acquire fails with `E_FAIL` (`0x80004005`). -/
def captureError : CaptureDriver := { captureOk with acquire := -2147467259 }

/-- A freshly constructed session. -/
def session0 : DesktopDuplicator := DesktopDuplicator.construct 10000000 0

/-- The session after `Initialize(0)` on `driverOk`. -/
def sessionReady : DesktopDuplicator := (Initialize session0 0 driverOk).state

/-- The session after a capture that observed `Lost`. -/
def sessionLost : DesktopDuplicator := (CaptureFrame sessionReady 16 captureLost).state

/-- Answers of a capture in which mapping the staging texture fails with `E_FAIL`. -/
def captureMapFails : CaptureDriver := { captureOk with map := -2147467259 }

/-- Answers of a capture in which the `ReleaseFrame` of the main path reports
`DXGI_ERROR_ACCESS_LOST`. -/
def captureReleaseFails : CaptureDriver :=
  { captureOk with releaseFrame := DXGI_ERROR_ACCESS_LOST }

/-- The `Release()` calls of `ReleaseResources` in the order of its five `SAFE_RELEASE`
lines (255-259). -/
def releaseOrder : List Event :=
  [Event.release .duplication, Event.release .stagingTexture,
    Event.release .desktopTexture, Event.release .context, Event.release .device]

/-- Some `Release()` of the object `a` comes later in the trace than a `Release()` of
the object `b`. -/
def releasedAfter (a b : Resource) (t : List Event) : Bool :=
  ((t.dropWhile (fun e => e != Event.release b)).drop 1).contains (Event.release a)

/-- The call is a `Release()` of one of the objects the session owns. -/
def Event.releasesOwned : Event → Bool
  | .release .device => true
  | .release .context => true
  | .release .duplication => true
  | .release .stagingTexture => true
  | .release .desktopTexture => true
  | _ => false

/-- A driver whose output reports a rectangle with `bottom` one below `top` while every
call succeeds. -/
def driverNegativeHeight : InitDriver :=
  { driverOk with
    output := fun _ => { output1080p with desktopCoordinates := ⟨0, 0, 1920, -1⟩ } }

/-- The session after `Initialize(0)` on `driverNegativeHeight`: width 1920, height -1. -/
def sessionNegativeHeight : DesktopDuplicator :=
  (Initialize session0 0 driverNegativeHeight).state

/-- The session after `Initialize(0)` on `driverEmptyRect`: width 0, height 0. -/
def sessionEmptyRect : DesktopDuplicator := (Initialize session0 0 driverEmptyRect).state

/-- Answers of a capture in which every call succeeds and the map reports a row pitch of
`2 ^ 31`. -/
def captureHugePitch : CaptureDriver := { captureOk with rowPitch := 2147483648 }

/-! ## Basic facts -/

theorem ready_guard (s : DesktopDuplicator) (h : Ready s) :
    (!s.m_IsInitialized || s.m_pDXGIOutputDuplication.isNone
      || s.m_pD3D11DeviceContext.isNone || s.m_pStagingTexture.isNone) = false := by
  obtain ⟨h1, -, -, h4, h5, h6, -⟩ := h
  cases hd : s.m_pDXGIOutputDuplication <;> cases hc : s.m_pD3D11DeviceContext <;>
    cases hs : s.m_pStagingTexture <;> simp_all

theorem accessLost_guard (s : DesktopDuplicator) (h : AccessLost s) :
    (!s.m_IsInitialized || s.m_pDXGIOutputDuplication.isNone
      || s.m_pD3D11DeviceContext.isNone || s.m_pStagingTexture.isNone) = false := by
  obtain ⟨h1, -, -, h4, h5, h6, -⟩ := h
  cases hd : s.m_pDXGIOutputDuplication <;> cases hc : s.m_pD3D11DeviceContext <;>
    cases hs : s.m_pStagingTexture <;> simp_all

/-- `CaptureFrame` in `AccessLost`: the second guard throws, nothing else happens. -/
theorem captureFrame_of_accessLost (s : DesktopDuplicator) (h : AccessLost s)
    (t : Int) (d : CaptureDriver) :
    CaptureFrame s t d = ⟨.error .accessLost, s, []⟩ := by
  unfold CaptureFrame
  rw [accessLost_guard s h]
  simp [h.2.1]

/-- `CaptureFrame` in `Ready`: both guards pass. -/
theorem captureFrame_of_ready (s : DesktopDuplicator) (h : Ready s)
    (t : Int) (d : CaptureDriver) :
    CaptureFrame s t d =
      match (CaptureFrameTry s t d).outcome.result with
      | .ok _ => (CaptureFrameTry s t d).outcome
      | .error e =>
        CaptureFrameCatch (CaptureFrameTry s t d).outcome.state
          (CaptureFrameTry s t d).pDesktopResource e (CaptureFrameTry s t d).outcome.trace := by
  unfold CaptureFrame
  rw [ready_guard s h]
  simp [h.2.1]

/-- `CaptureFrame` with the initialized flag clear: the first guard throws. -/
theorem captureFrame_of_not_initialized (s : DesktopDuplicator)
    (h : s.m_IsInitialized = false) (t : Int) (d : CaptureDriver) :
    CaptureFrame s t d = ⟨.error .notInitialized, s, []⟩ := by
  unfold CaptureFrame
  simp [h]

/-- `CaptureFrame` on `Lost`, from `Ready`. -/
theorem captureFrame_lost (s : DesktopDuplicator) (h : Ready s) (t : Int)
    (d : CaptureDriver) (hd : d.acquire = DXGI_ERROR_ACCESS_LOST) :
    CaptureFrame s t d =
      ⟨.error .accessLostAcquire,
        { s with m_AccessLost := true, m_TotalErrors := incr64 s.m_TotalErrors },
        [Event.acquireNextFrame (toUInt32 t), Event.releaseFrame]⟩ := by
  rw [captureFrame_of_ready s h]
  obtain ⟨h1, h2, h3, h4, h5, h6, h7⟩ := h
  have hne : DXGI_ERROR_ACCESS_LOST ≠ DXGI_ERROR_WAIT_TIMEOUT := by decide
  have hf : FAILED DXGI_ERROR_ACCESS_LOST = true := by decide
  simp [CaptureFrameTry, CaptureFrameCatch, hd, hne, comOut, hf, SAFE_RELEASE, h5, h7]

/-- `CaptureFrame` on a transient error, from `Ready`. -/
theorem captureFrame_transient (s : DesktopDuplicator) (h : Ready s) (t : Int)
    (d : CaptureDriver) (hd : TransientError d.acquire) :
    CaptureFrame s t d =
      ⟨.error (.acquireFailed d.acquire),
        { s with m_TotalErrors := incr64 (incr64 s.m_TotalErrors) },
        [Event.acquireNextFrame (toUInt32 t), Event.releaseFrame]⟩ := by
  rw [captureFrame_of_ready s h]
  obtain ⟨h1, h2, h3, h4, h5, h6, h7⟩ := h
  obtain ⟨hf, hnt, hnl⟩ := hd
  simp [CaptureFrameTry, CaptureFrameCatch, hnt, hnl, comOut, hf, SAFE_RELEASE, h5, h7]

/-- `CaptureFrame` on `Timeout`, from `Ready`. -/
theorem captureFrame_timeout (s : DesktopDuplicator) (h : Ready s) (t : Int)
    (d : CaptureDriver) (hd : d.acquire = DXGI_ERROR_WAIT_TIMEOUT) :
    CaptureFrame s t d = ⟨.ok none, s, [Event.acquireNextFrame (toUInt32 t)]⟩ := by
  rw [captureFrame_of_ready s h]
  simp [CaptureFrameTry, hd]

/-- A failing `Initialize`: the error is that of the first failing step and the object
is as `ReleaseResources` leaves it, with the requested index recorded. -/
theorem initialize_of_firstFailing (s : DesktopDuplicator) (i : Int) (d : InitDriver)
    (st : Step) (h : firstFailing d i = some st) :
    (Initialize s i d).result = .error (.hresult st (initStepHr d i st)) ∧
    (Initialize s i d).state = { (ReleaseResources s).state with m_OutputIndex := i } := by
  simp only [firstFailing, initSteps, List.find?, initStepHr] at h
  simp only [Initialize, InitializeTry, CreateStagingTexture, ReleaseResources, comOut]
  iterate 9
    split at h
    · cases h; simp_all [initStepHr]
  cases h

/-- A succeeding `Initialize`: no step fails, and the object holds the four new
objects, the resolution of the output and the flags of `Ready`. -/
theorem initialize_of_no_failing (s : DesktopDuplicator) (i : Int) (d : InitDriver)
    (h : firstFailing d i = none) :
    (Initialize s i d).result = .ok () ∧
    (Initialize s i d).state =
      { s with
        m_pD3D11Device := some d.device
        m_pD3D11DeviceContext := some d.context
        m_pDXGIOutputDuplication := some (d.output (toUInt32 i)).duplication
        m_pStagingTexture := some d.stagingTexture
        m_pDesktopTexture := none
        m_OutputWidth :=
          wrapInt32 ((d.output (toUInt32 i)).desktopCoordinates.right
            - (d.output (toUInt32 i)).desktopCoordinates.left)
        m_OutputHeight :=
          wrapInt32 ((d.output (toUInt32 i)).desktopCoordinates.bottom
            - (d.output (toUInt32 i)).desktopCoordinates.top)
        m_OutputIndex := i
        m_IsInitialized := true
        m_AccessLost := false } := by
  simp only [firstFailing, initSteps, List.find?, initStepHr] at h
  simp only [Initialize, InitializeTry, CreateStagingTexture, ReleaseResources, comOut]
  iterate 9
    split at h
    · cases h
  simp_all

/-- The result of `Initialize` is decided by the first failing step. -/
theorem initialize_result (s : DesktopDuplicator) (i : Int) (d : InitDriver) :
    (Initialize s i d).result =
      match firstFailing d i with
      | some st => .error (.hresult st (initStepHr d i st))
      | none => .ok () := by
  cases h : firstFailing d i with
  | none => exact (initialize_of_no_failing s i d h).1
  | some st => exact (initialize_of_firstFailing s i d st h).1

/-- `Reinitialize` is `Initialize` at the recorded index. -/
theorem reinitialize_eq (s : DesktopDuplicator) (d : InitDriver) :
    Reinitialize s d = Initialize s s.m_OutputIndex d := by
  unfold Reinitialize
  cases h : (Initialize s s.m_OutputIndex d).result <;>
    cases hI : Initialize s s.m_OutputIndex d <;> simp_all

theorem not_failed_ne (hr : HRESULT) (h : FAILED hr = false) :
    hr ≠ DXGI_ERROR_WAIT_TIMEOUT ∧ hr ≠ DXGI_ERROR_ACCESS_LOST := by
  constructor <;> (intro he; rw [he] at h; revert h; decide)

/-- `CaptureFrame` from `Ready` when the texture query fails. -/
theorem captureFrame_queryTexture_failed (s : DesktopDuplicator) (h : Ready s) (t : Int)
    (d : CaptureDriver) (ha : FAILED d.acquire = false) (hq : FAILED d.queryTexture = true) :
    CaptureFrame s t d =
      ⟨.error (.hresult .queryTexture d.queryTexture),
        { s with m_TotalErrors := incr64 s.m_TotalErrors },
        [Event.acquireNextFrame (toUInt32 t), Event.queryTexture,
          Event.release .desktopResource, Event.releaseFrame]⟩ := by
  rw [captureFrame_of_ready s h]
  obtain ⟨h1, h2, h3, h4, h5, h6, h7⟩ := h
  obtain ⟨hnt, hnl⟩ := not_failed_ne _ ha
  simp [CaptureFrameTry, CaptureFrameCatch, hnt, hnl, comOut, ha, hq, SAFE_RELEASE, h5, h7]

/-- `CaptureFrame` from `Ready` when mapping the staging texture fails. -/
theorem captureFrame_map_failed (s : DesktopDuplicator) (h : Ready s) (t : Int)
    (d : CaptureDriver) (ha : FAILED d.acquire = false) (hq : FAILED d.queryTexture = false)
    (hm : FAILED d.map = true) :
    CaptureFrame s t d =
      ⟨.error (.hresult .mapStaging d.map),
        { s with m_TotalErrors := incr64 s.m_TotalErrors },
        [Event.acquireNextFrame (toUInt32 t), Event.queryTexture,
          Event.release .desktopResource, Event.copyResource,
          Event.release .desktopTexture, Event.map, Event.releaseFrame]⟩ := by
  rw [captureFrame_of_ready s h]
  obtain ⟨h1, h2, h3, h4, h5, h6, h7⟩ := h
  obtain ⟨hnt, hnl⟩ := not_failed_ne _ ha
  simp [CaptureFrameTry, CaptureFrameCatch, hnt, hnl, comOut, ha, hq, hm, SAFE_RELEASE, h5, h7]

/-- `CaptureFrame` from `Ready` when the pixel buffer cannot have the computed size. -/
theorem captureFrame_length_error (s : DesktopDuplicator) (h : Ready s) (t : Int)
    (d : CaptureDriver) (ha : FAILED d.acquire = false) (hq : FAILED d.queryTexture = false)
    (hm : FAILED d.map = false)
    (hn : vectorMaxSize < toSizeT (wrapInt32 (s.m_OutputHeight * wrapInt32 (d.rowPitch : Int)))) :
    CaptureFrame s t d =
      ⟨.error .lengthError,
        { s with m_TotalErrors := incr64 s.m_TotalErrors },
        [Event.acquireNextFrame (toUInt32 t), Event.queryTexture,
          Event.release .desktopResource, Event.copyResource,
          Event.release .desktopTexture, Event.map, Event.releaseFrame]⟩ := by
  rw [captureFrame_of_ready s h]
  obtain ⟨h1, h2, h3, h4, h5, h6, h7⟩ := h
  obtain ⟨hnt, hnl⟩ := not_failed_ne _ ha
  simp [CaptureFrameTry, CaptureFrameCatch, hnt, hnl, comOut, ha, hq, hm, hn, SAFE_RELEASE,
    h5, h7]

/-- `CaptureFrame` from `Ready` when the `ReleaseFrame` of the try block fails. -/
theorem captureFrame_release_failed (s : DesktopDuplicator) (h : Ready s) (t : Int)
    (d : CaptureDriver) (ha : FAILED d.acquire = false) (hq : FAILED d.queryTexture = false)
    (hm : FAILED d.map = false)
    (hn : ¬ vectorMaxSize < toSizeT (wrapInt32 (s.m_OutputHeight * wrapInt32 (d.rowPitch : Int))))
    (hr : FAILED d.releaseFrame = true) :
    CaptureFrame s t d =
      ⟨.error (.hresult .releaseFrame d.releaseFrame),
        { s with m_TotalErrors := incr64 s.m_TotalErrors },
        [Event.acquireNextFrame (toUInt32 t), Event.queryTexture,
          Event.release .desktopResource, Event.copyResource,
          Event.release .desktopTexture, Event.map, Event.unmap, Event.releaseFrame,
          Event.releaseFrame]⟩ := by
  rw [captureFrame_of_ready s h]
  obtain ⟨h1, h2, h3, h4, h5, h6, h7⟩ := h
  obtain ⟨hnt, hnl⟩ := not_failed_ne _ ha
  simp [CaptureFrameTry, CaptureFrameCatch, hnt, hnl, comOut, ha, hq, hm, hn, hr, SAFE_RELEASE,
    h5, h7]

/-- `CaptureFrame` from `Ready` when every step succeeds. -/
theorem captureFrame_frame (s : DesktopDuplicator) (h : Ready s) (t : Int)
    (d : CaptureDriver) (ha : FAILED d.acquire = false) (hq : FAILED d.queryTexture = false)
    (hm : FAILED d.map = false)
    (hn : ¬ vectorMaxSize < toSizeT (wrapInt32 (s.m_OutputHeight * wrapInt32 (d.rowPitch : Int))))
    (hr : FAILED d.releaseFrame = false) :
    CaptureFrame s t d =
      ⟨.ok (some
          { pixels :=
              (List.range (toSizeT (wrapInt32 (s.m_OutputHeight * wrapInt32 (d.rowPitch : Int))))).map
                d.pData
            width := s.m_OutputWidth
            height := s.m_OutputHeight
            stride := wrapInt32 (d.rowPitch : Int) }),
        { s with
          m_TotalFramesCaptured := incr64 s.m_TotalFramesCaptured
          m_LastCaptureTime := d.clock },
        [Event.acquireNextFrame (toUInt32 t), Event.queryTexture,
          Event.release .desktopResource, Event.copyResource,
          Event.release .desktopTexture, Event.map, Event.unmap, Event.releaseFrame]⟩ := by
  rw [captureFrame_of_ready s h]
  obtain ⟨h1, h2, h3, h4, h5, h6, h7⟩ := h
  obtain ⟨hnt, hnl⟩ := not_failed_ne _ ha
  simp [CaptureFrameTry, hnt, hnl, comOut, ha, hq, hm, hn, hr, SAFE_RELEASE, h7]

/-- From `Ready`, `CaptureFrame` changes at most the access-lost flag, the two counters
and the time stamp; the flag is set exactly when the acquire answered `Lost`. -/
theorem captureFrame_ready_state (s : DesktopDuplicator) (h : Ready s) (t : Int)
    (d : CaptureDriver) :
    SameSession s (CaptureFrame s t d).state ∧
    (CaptureFrame s t d).state.m_AccessLost = decide (d.acquire = DXGI_ERROR_ACCESS_LOST) := by
  have h2 := h.2.1
  have h7 := h.2.2.2.2.2.2
  by_cases hl : d.acquire = DXGI_ERROR_ACCESS_LOST
  · rw [captureFrame_lost s h t d hl]; simp [SameSession, hl]
  by_cases ht : d.acquire = DXGI_ERROR_WAIT_TIMEOUT
  · rw [captureFrame_timeout s h t d ht]; simp [SameSession, hl, h2]
  cases ha : FAILED d.acquire
  swap
  · rw [captureFrame_transient s h t d ⟨ha, ht, hl⟩]; simp [SameSession, hl, h2]
  cases hq : FAILED d.queryTexture
  swap
  · rw [captureFrame_queryTexture_failed s h t d ha hq]; simp [SameSession, hl, h2]
  cases hm : FAILED d.map
  swap
  · rw [captureFrame_map_failed s h t d ha hq hm]; simp [SameSession, hl, h2]
  by_cases hn : vectorMaxSize <
      toSizeT (wrapInt32 (s.m_OutputHeight * wrapInt32 (d.rowPitch : Int)))
  · rw [captureFrame_length_error s h t d ha hq hm hn]; simp [SameSession, hl, h2]
  cases hr : FAILED d.releaseFrame
  swap
  · rw [captureFrame_release_failed s h t d ha hq hm hn hr]; simp [SameSession, hl, h2]
  rw [captureFrame_frame s h t d ha hq hm hn hr]; simp [SameSession, hl, h2, h7]

theorem uninitialized_construct (frequency now : Int) :
    Uninitialized (DesktopDuplicator.construct frequency now) := by
  simp [Uninitialized, DesktopDuplicator.construct]

theorem uninitialized_releaseResources (s : DesktopDuplicator) :
    Uninitialized (ReleaseResources s).state := by
  simp [Uninitialized, ReleaseResources]

/-- `Initialize` ends in `Uninitialized` when it fails and in `Ready` when it succeeds. -/
theorem initialize_state (s : DesktopDuplicator) (i : Int) (d : InitDriver) :
    ((∃ e, (Initialize s i d).result = .error e) ∧ Uninitialized (Initialize s i d).state) ∨
    ((Initialize s i d).result = .ok () ∧ Ready (Initialize s i d).state) := by
  cases h : firstFailing d i with
  | none =>
    right
    obtain ⟨hr, hs⟩ := initialize_of_no_failing s i d h
    exact ⟨hr, by rw [hs]; simp [Ready]⟩
  | some st =>
    left
    obtain ⟨hr, hs⟩ := initialize_of_firstFailing s i d st h
    exact ⟨⟨_, hr⟩, by rw [hs]; simp [Uninitialized, ReleaseResources]⟩

/-- From `Ready`, `CaptureFrame` ends in `Ready` or, on `Lost`, in `AccessLost`. -/
theorem captureFrame_ready_next (s : DesktopDuplicator) (h : Ready s) (t : Int)
    (d : CaptureDriver) :
    (d.acquire ≠ DXGI_ERROR_ACCESS_LOST ∧ Ready (CaptureFrame s t d).state) ∨
    (d.acquire = DXGI_ERROR_ACCESS_LOST ∧ AccessLost (CaptureFrame s t d).state) := by
  obtain ⟨⟨e1, e2, e3, e4, e5, e6, e7, e8, e9, e10⟩, hl⟩ := captureFrame_ready_state s h t d
  obtain ⟨h1, h2, h3, h4, h5, h6, h7⟩ := h
  by_cases hd : d.acquire = DXGI_ERROR_ACCESS_LOST
  · right
    refine ⟨hd, ?_⟩
    simp only [AccessLost, e1, e2, e3, e4, e5, e9, hl, h1, h3, h4, h5, h6, h7, hd]
    simp
  · left
    refine ⟨hd, ?_⟩
    simp only [Ready, e1, e2, e3, e4, e5, e9, hl, h1, h3, h4, h5, h6, h7, hd]
    simp

/-- Every reachable object is in one of the three resting states. -/
theorem reachable_state (s : DesktopDuplicator) (h : Reachable s) :
    Uninitialized s ∨ Ready s ∨ AccessLost s := by
  induction h with
  | fresh f n => exact Or.inl (uninitialized_construct f n)
  | @init s0 i d _ _ =>
    rcases initialize_state s0 i d with ⟨_, hu⟩ | ⟨_, hr⟩
    · exact Or.inl hu
    · exact Or.inr (Or.inl hr)
  | @reinit s0 d _ _ =>
    rw [reinitialize_eq]
    rcases initialize_state s0 s0.m_OutputIndex d with ⟨_, hu⟩ | ⟨_, hr⟩
    · exact Or.inl hu
    · exact Or.inr (Or.inl hr)
  | @capture s0 t d _ ih =>
    rcases ih with hu | hr | hl
    · rw [captureFrame_of_not_initialized s0 hu.1]; exact Or.inl hu
    · rcases captureFrame_ready_next s0 hr t d with ⟨_, h1⟩ | ⟨_, h1⟩
      · exact Or.inr (Or.inl h1)
      · exact Or.inr (Or.inr h1)
    · rw [captureFrame_of_accessLost s0 hl]; exact Or.inr (Or.inr hl)
  | @teardown s0 _ _ =>
    exact Or.inl (uninitialized_releaseResources s0)

/-- A reachable object for which `IsInitialized()` answers true is `Ready`. -/
theorem ready_of_reachable (s : DesktopDuplicator) (h : Reachable s)
    (hi : IsInitialized s = true) : Ready s := by
  rcases reachable_state s h with hu | hr | hl
  · simp [IsInitialized, hu.1] at hi
  · exact hr
  · simp [IsInitialized, hl.2.1] at hi

theorem isInitialized_of_ready (s : DesktopDuplicator) (h : Ready s) :
    IsInitialized s = true := by
  obtain ⟨h1, h2, h3, h4, h5, h6, h7⟩ := h
  simp [IsInitialized, h1, h2, h5]

theorem wrapInt32_eq_iff (x : Int) : wrapInt32 x = x ↔ -2 ^ 31 ≤ x ∧ x < 2 ^ 31 := by
  unfold wrapInt32
  omega

theorem toSizeT_eq_iff (x : Int) : (toSizeT x : Int) = x ↔ 0 ≤ x ∧ x < 2 ^ 64 := by
  unfold toSizeT
  omega

/-- The exactness condition in plain bounds. -/
theorem frameSizeExact_iff (height : Int) (rowPitch : Nat) :
    FrameSizeExact height rowPitch ↔
      (rowPitch : Int) < 2 ^ 31 ∧ 0 ≤ height * rowPitch ∧ height * rowPitch < 2 ^ 31 := by
  unfold FrameSizeExact
  rw [wrapInt32_eq_iff, wrapInt32_eq_iff, toSizeT_eq_iff]
  generalize height * (rowPitch : Int) = x
  omega

/-- Under the exactness condition the buffer has `height * rowPitch` bytes and `resize`
accepts that size. -/
theorem frameSizeExact_count (height : Int) (rowPitch : Nat)
    (h : FrameSizeExact height rowPitch) :
    wrapInt32 (rowPitch : Int) = rowPitch ∧
    (toSizeT (wrapInt32 (height * wrapInt32 (rowPitch : Int))) : Int) = height * rowPitch ∧
    ¬ vectorMaxSize < toSizeT (wrapInt32 (height * wrapInt32 (rowPitch : Int))) := by
  obtain ⟨h1, h2, h3⟩ := h
  rw [h1, h2]
  refine ⟨rfl, h3, ?_⟩
  rw [toSizeT_eq_iff] at h3
  rw [wrapInt32_eq_iff] at h2
  unfold vectorMaxSize toSizeT
  generalize height * (rowPitch : Int) = x at *
  omega

theorem captureAll_length (s : DesktopDuplicator) (calls : List (Int × CaptureDriver)) :
    (captureAll s calls).length = calls.length := by
  induction calls generalizing s with
  | nil => rfl
  | cons c rest ih => simp [captureAll, ih]

/-- In `AccessLost` every call of a run of `CaptureFrame` calls is stopped by the second
guard. -/
theorem captureAll_of_accessLost (s : DesktopDuplicator) (h : AccessLost s)
    (calls : List (Int × CaptureDriver)) :
    ∀ o ∈ captureAll s calls, o = ⟨.error .accessLost, s, []⟩ := by
  induction calls with
  | nil => intro o ho; simp [captureAll] at ho
  | cons c rest ih =>
    intro o ho
    simp only [captureAll, captureFrame_of_accessLost s h, List.mem_cons] at ho
    rcases ho with ho | ho
    · exact ho
    · exact ih o ho

theorem sameSession_refl (s : DesktopDuplicator) : SameSession s s := by
  simp [SameSession]

theorem sameSession_trans {s s1 s2 : DesktopDuplicator} (h1 : SameSession s s1)
    (h2 : SameSession s1 s2) : SameSession s s2 := by
  unfold SameSession at *
  obtain ⟨a1, a2, a3, a4, a5, a6, a7, a8, a9, a10⟩ := h1
  obtain ⟨b1, b2, b3, b4, b5, b6, b7, b8, b9, b10⟩ := h2
  exact ⟨b1.trans a1, b2.trans a2, b3.trans a3, b4.trans a4, b5.trans a5, b6.trans a6,
    b7.trans a7, b8.trans a8, b9.trans a9, b10.trans a10⟩

/-- A run of `CaptureFrame` calls that all meet a transient error, from `Ready`. -/
theorem captureAll_transient (s0 s : DesktopDuplicator) (hs : Ready s)
    (h0 : SameSession s0 s) (calls : List (Int × CaptureDriver))
    (hc : ∀ c ∈ calls, TransientError c.2.acquire) :
    List.Forall₂
      (fun c o =>
        o.result = Result.error (Error.acquireFailed c.2.acquire) ∧ Ready o.state ∧
        IsInitialized o.state = true ∧ o.state.m_AccessLost = false ∧
        SameSession s0 o.state)
      calls (captureAll s calls) := by
  induction calls generalizing s with
  | nil => exact List.Forall₂.nil
  | cons c rest ih =>
    have hc1 : TransientError c.2.acquire := hc c (List.mem_cons_self _ _)
    have hne : c.2.acquire ≠ DXGI_ERROR_ACCESS_LOST := hc1.2.2
    have hres : (CaptureFrame s c.1 c.2).result = .error (.acquireFailed c.2.acquire) := by
      rw [captureFrame_transient s hs c.1 c.2 hc1]
    have hready : Ready (CaptureFrame s c.1 c.2).state := by
      rcases captureFrame_ready_next s hs c.1 c.2 with ⟨_, h1⟩ | ⟨h1, _⟩
      · exact h1
      · exact absurd h1 hne
    have hsame : SameSession s0 (CaptureFrame s c.1 c.2).state :=
      sameSession_trans h0 (captureFrame_ready_state s hs c.1 c.2).1
    refine List.Forall₂.cons ⟨hres, hready, isInitialized_of_ready _ hready, hready.2.1, hsame⟩ ?_
    exact ih _ hready hsame (fun c1 h1 => hc c1 (List.mem_cons_of_mem _ h1))

theorem notYetInitialized_flag (s : DesktopDuplicator) (h : NotYetInitialized s) :
    s.m_IsInitialized = false := by
  induction h with
  | fresh f n => rfl
  | failedInit s0 i d e he =>
    rcases initialize_state s0 i d with ⟨_, hu⟩ | ⟨hr, _⟩
    · exact hu.1
    · rw [hr] at he; cases he
  | failedReinit s0 d e he =>
    rw [reinitialize_eq] at he ⊢
    rcases initialize_state s0 s0.m_OutputIndex d with ⟨_, hu⟩ | ⟨hr, _⟩
    · exact hu.1
    · rw [hr] at he; cases he
  | teardown s0 => rfl
  | @capture s0 t d _ ih =>
    rw [captureFrame_of_not_initialized s0 ih]
    exact ih

theorem firstFailing_mem (d : InitDriver) (i : Int) (st : Step)
    (h : firstFailing d i = some st) :
    st ∈ initSteps ∧ FAILED (initStepHr d i st) = true := by
  unfold firstFailing at h
  exact ⟨List.mem_of_find?_eq_some h, by simpa using List.find?_some h⟩

/-- The `try` block of `Initialize` releases no object the session owns. -/
theorem initializeTry_releases_no_owned (s : DesktopDuplicator) (i : Int)
    (d : InitDriver) :
    ∀ e ∈ (InitializeTry s i d).trace, e.releasesOwned = false := by
  cases h1 : FAILED d.createDevice
  swap
  · simp [InitializeTry, h1, Event.releasesOwned]
  cases h2 : FAILED d.queryDXGIDevice
  swap
  · simp [InitializeTry, h1, h2, Event.releasesOwned]
  cases h3 : FAILED d.getAdapter
  swap
  · simp [InitializeTry, h1, h2, h3, Event.releasesOwned]
  cases h4 : FAILED d.getFactory
  swap
  · simp [InitializeTry, h1, h2, h3, h4, Event.releasesOwned]
  cases h5 : FAILED (d.output (toUInt32 i)).enumOutputs
  swap
  · simp [InitializeTry, h1, h2, h3, h4, h5, Event.releasesOwned]
  cases h6 : FAILED (d.output (toUInt32 i)).queryOutput1
  swap
  · simp [InitializeTry, h1, h2, h3, h4, h5, h6, Event.releasesOwned]
  cases h7 : FAILED (d.output (toUInt32 i)).getDesc
  swap
  · simp [InitializeTry, h1, h2, h3, h4, h5, h6, h7, Event.releasesOwned]
  cases h8 : FAILED (d.output (toUInt32 i)).duplicateOutput
  swap
  · simp [InitializeTry, h1, h2, h3, h4, h5, h6, h7, h8, Event.releasesOwned]
  simp only [InitializeTry, CreateStagingTexture, comOut, h1, h2, h3, h4, h5, h6, h7, h8]
  split_ifs <;> simp [Event.releasesOwned]

/-- The calls of `Initialize`: those of the `ReleaseResources` at its start, those of the
`try` block, and on failure those of the `ReleaseResources` of the handler. -/
theorem initialize_trace (s : DesktopDuplicator) (i : Int) (d : InitDriver) :
    (Initialize s i d).trace =
      (ReleaseResources s).trace
        ++ (InitializeTry { (ReleaseResources s).state with m_OutputIndex := i } i d).trace
        ++ (match (InitializeTry { (ReleaseResources s).state with m_OutputIndex := i } i d).result with
            | .ok _ => []
            | .error _ =>
              (ReleaseResources
                (InitializeTry { (ReleaseResources s).state with m_OutputIndex := i } i d).state).trace) := by
  unfold Initialize
  cases h : (InitializeTry { (ReleaseResources s).state with m_OutputIndex := i } i d).result <;>
    simp [h]

/-- How often `ReleaseResources` calls `Release()` on each owned object: once if the
pointer is not null, never if it is. -/
theorem releaseResources_count (s : DesktopDuplicator) :
    (ReleaseResources s).trace.count (Event.release .device)
      = (if s.m_pD3D11Device.isSome then 1 else 0) ∧
    (ReleaseResources s).trace.count (Event.release .context)
      = (if s.m_pD3D11DeviceContext.isSome then 1 else 0) ∧
    (ReleaseResources s).trace.count (Event.release .duplication)
      = (if s.m_pDXGIOutputDuplication.isSome then 1 else 0) ∧
    (ReleaseResources s).trace.count (Event.release .stagingTexture)
      = (if s.m_pStagingTexture.isSome then 1 else 0) ∧
    (ReleaseResources s).trace.count (Event.release .desktopTexture)
      = (if s.m_pDesktopTexture.isSome then 1 else 0) := by
  simp only [ReleaseResources]
  cases s.m_pDXGIOutputDuplication <;> cases s.m_pStagingTexture <;>
    cases s.m_pDesktopTexture <;> cases s.m_pD3D11DeviceContext <;>
    cases s.m_pD3D11Device <;> simp only [SAFE_RELEASE, Option.isSome_some, Option.isSome_none] <;> decide

/-- The `Release()` calls of the handler of a failing `Initialize`: the channel if the
failing step is the staging texture (the duplication had succeeded), the context and
the device unless the failing step is the device creation itself. -/
theorem initialize_failed_handler_trace (s : DesktopDuplicator) (i : Int) (d : InitDriver)
    (st : Step) (h : firstFailing d i = some st) :
    (InitializeTry { (ReleaseResources s).state with m_OutputIndex := i } i d).result
      = Result.error (Error.hresult st (initStepHr d i st)) ∧
    (st = Step.createDevice ↔ FAILED d.createDevice = true) ∧
    (st = Step.createStagingTexture →
      FAILED (d.output (toUInt32 i)).duplicateOutput = false) ∧
    (ReleaseResources
        (InitializeTry { (ReleaseResources s).state with m_OutputIndex := i } i d).state).trace
      = (if st = Step.createStagingTexture then [Event.release .duplication] else [])
          ++ (if st = Step.createDevice then []
              else [Event.release .context, Event.release .device]) := by
  simp only [firstFailing, initSteps, List.find?, initStepHr] at h
  simp only [InitializeTry, CreateStagingTexture, ReleaseResources, comOut]
  iterate 9
    split at h
    · cases h; simp_all [initStepHr, SAFE_RELEASE]
  cases h

/-! ## The claims -/

/-- C1: from `Ready`, a `CaptureFrame` call whose acquire answers `Lost` throws the
access-lost error of the acquire and leaves `IsInitialized()` false; every later
`CaptureFrame` call, whatever its timeout and driver answers and however many there
are, throws the access-lost error of the guard (not the not-initialized error), makes
no call on any GPU object, and leaves the whole object, counters included, as it
was. -/
theorem C1_access_lost_gates_every_later_capture (s : DesktopDuplicator) (hs : Ready s)
    (t : Int) (d : CaptureDriver) (hd : d.acquire = DXGI_ERROR_ACCESS_LOST)
    (calls : List (Int × CaptureDriver)) :
    (CaptureFrame s t d).result = Result.error Error.accessLostAcquire ∧
    IsInitialized (CaptureFrame s t d).state = false ∧
    (captureAll (CaptureFrame s t d).state calls).length = calls.length ∧
    ∀ o ∈ captureAll (CaptureFrame s t d).state calls,
      o.result = Result.error Error.accessLost ∧
      o.result ≠ Result.error Error.notInitialized ∧
      o.trace = [] ∧ (∀ e ∈ o.trace, e.onChannel = false) ∧
      o.state = (CaptureFrame s t d).state ∧
      IsInitialized o.state = false := by
  have hlost : AccessLost (CaptureFrame s t d).state := by
    rcases captureFrame_ready_next s hs t d with ⟨h1, _⟩ | ⟨_, h1⟩
    · exact absurd hd h1
    · exact h1
  have hnot : IsInitialized (CaptureFrame s t d).state = false := by
    simp [IsInitialized, hlost.2.1]
  refine ⟨by rw [captureFrame_lost s hs t d hd], hnot, captureAll_length _ _, ?_⟩
  intro o ho
  rw [captureAll_of_accessLost _ hlost calls o ho]
  exact ⟨rfl, by simp, rfl, by simp, rfl, hnot⟩

/-- Witness of C1: a 1920 x 1080 session loses access, then three more captures. -/
theorem C1_access_lost_gates_every_later_capture_witness :
    Ready sessionReady ∧ captureLost.acquire = DXGI_ERROR_ACCESS_LOST ∧
    (CaptureFrame sessionReady 16 captureLost).result = Result.error Error.accessLostAcquire ∧
    (captureAll (CaptureFrame sessionReady 16 captureLost).state
      [(16, captureOk), (0, captureTimeout), (100, captureLost)]).length = 3 :=
  ⟨by decide, by decide,
    (C1_access_lost_gates_every_later_capture sessionReady (by decide) 16 captureLost
      (by decide) [(16, captureOk), (0, captureTimeout), (100, captureLost)]).1,
    (C1_access_lost_gates_every_later_capture sessionReady (by decide) 16 captureLost
      (by decide) [(16, captureOk), (0, captureTimeout), (100, captureLost)]).2.2.1⟩

/-- C2: from `Ready`, every `CaptureFrame` call of a run whose acquires all fail with a
result other than `Timeout` and `Lost` throws the capture error carrying that result
and leaves the session `Ready`: `IsInitialized()` is true, the access-lost flag is
false, and the owned objects, the resolution, the output index and the initialized
flag are those of the start; so no number of such errors moves the session to
`AccessLost`. -/
theorem C2_transient_error_keeps_ready (s : DesktopDuplicator) (hs : Ready s)
    (calls : List (Int × CaptureDriver))
    (hc : ∀ c ∈ calls, TransientError c.2.acquire) :
    List.Forall₂
      (fun c o =>
        o.result = Result.error (Error.acquireFailed c.2.acquire) ∧ Ready o.state ∧
        IsInitialized o.state = true ∧ o.state.m_AccessLost = false ∧
        SameSession s o.state)
      calls (captureAll s calls) :=
  captureAll_transient s s hs (sameSession_refl s) calls hc

/-- Witness of C2: two captures in a row fail with `E_FAIL`. -/
theorem C2_transient_error_keeps_ready_witness :
    Ready sessionReady ∧
    (∀ c ∈ [((16 : Int), captureError), (16, captureError)], TransientError c.2.acquire) ∧
    List.Forall₂
      (fun c o =>
        o.result = Result.error (Error.acquireFailed c.2.acquire) ∧ Ready o.state ∧
        IsInitialized o.state = true ∧ o.state.m_AccessLost = false ∧
        SameSession sessionReady o.state)
      [((16 : Int), captureError), (16, captureError)]
      (captureAll sessionReady [(16, captureError), (16, captureError)]) :=
  ⟨by decide, by simp [TransientError, captureError, captureOk]; decide,
    C2_transient_error_keeps_ready sessionReady (by decide)
      [(16, captureError), (16, captureError)]
      (by simp [TransientError, captureError, captureOk]; decide)⟩

/-- C3: from `Ready`, for every timeout, when the acquire answers `Timeout` the call
`CaptureFrame` returns the null pointer without throwing, the object is unchanged (so
the session is still `Ready` and both counters keep their values), and the only call
made is the acquire: `ReleaseFrame` is not called. -/
theorem C3_timeout_returns_no_frame (s : DesktopDuplicator) (hs : Ready s) (t : Int)
    (d : CaptureDriver) (hd : d.acquire = DXGI_ERROR_WAIT_TIMEOUT) :
    (CaptureFrame s t d).result = Result.ok none ∧
    (CaptureFrame s t d).state = s ∧
    Ready (CaptureFrame s t d).state ∧
    IsInitialized (CaptureFrame s t d).state = true ∧
    (CaptureFrame s t d).state.m_TotalFramesCaptured = s.m_TotalFramesCaptured ∧
    (CaptureFrame s t d).state.m_TotalErrors = s.m_TotalErrors ∧
    (CaptureFrame s t d).trace = [Event.acquireNextFrame (toUInt32 t)] ∧
    Event.releaseFrame ∉ (CaptureFrame s t d).trace := by
  rw [captureFrame_timeout s hs t d hd]
  exact ⟨rfl, rfl, hs, isInitialized_of_ready s hs, rfl, rfl, rfl, by simp⟩

/-- Witness of C3: a 16 ms capture on a 1920 x 1080 session times out. -/
theorem C3_timeout_returns_no_frame_witness :
    Ready sessionReady ∧ captureTimeout.acquire = DXGI_ERROR_WAIT_TIMEOUT ∧
    (CaptureFrame sessionReady 16 captureTimeout).result = Result.ok none ∧
    (CaptureFrame sessionReady 16 captureTimeout).state = sessionReady :=
  ⟨by decide, by decide,
    (C3_timeout_returns_no_frame sessionReady (by decide) 16 captureTimeout (by decide)).1,
    (C3_timeout_returns_no_frame sessionReady (by decide) 16 captureTimeout (by decide)).2.1⟩

/-- C4: on a session on which no `Initialize` has succeeded since construction or since
the last failed `Initialize` / `Reinitialize` (or teardown), `CaptureFrame` with any
timeout and any driver throws the not-initialized error, makes no call on any GPU
object and leaves the whole object, both counters included, unchanged. -/
theorem C4_capture_not_initialized (s : DesktopDuplicator) (hs : NotYetInitialized s)
    (t : Int) (d : CaptureDriver) :
    (CaptureFrame s t d).result = Result.error Error.notInitialized ∧
    (CaptureFrame s t d).trace = [] ∧
    (CaptureFrame s t d).state = s ∧
    (CaptureFrame s t d).state.m_TotalFramesCaptured = s.m_TotalFramesCaptured ∧
    (CaptureFrame s t d).state.m_TotalErrors = s.m_TotalErrors := by
  rw [captureFrame_of_not_initialized s (notYetInitialized_flag s hs)]
  exact ⟨rfl, rfl, rfl, rfl, rfl⟩

/-- Witness of C4: a capture on a session whose `Initialize(1)` failed for want of a
second output. -/
theorem C4_capture_not_initialized_witness :
    NotYetInitialized (Initialize session0 1 driverOk).state ∧
    (CaptureFrame (Initialize session0 1 driverOk).state 100 captureOk).result
      = Result.error Error.notInitialized :=
  ⟨NotYetInitialized.failedInit session0 1 driverOk
      (Error.hresult Step.enumOutputs DXGI_ERROR_NOT_FOUND) (by decide),
    (C4_capture_not_initialized (Initialize session0 1 driverOk).state
      (NotYetInitialized.failedInit session0 1 driverOk
        (Error.hresult Step.enumOutputs DXGI_ERROR_NOT_FOUND) (by decide)) 100 captureOk).1⟩

theorem initializeTry_count_owned (s : DesktopDuplicator) (i : Int) (d : InitDriver)
    (e : Event) (he : e.releasesOwned = true) :
    (InitializeTry s i d).trace.count e = 0 := by
  rw [List.count_eq_zero]
  intro hmem
  rw [initializeTry_releases_no_owned s i d e hmem] at he
  cases he

/-- C5: for every starting object, every output index and every step of `Initialize`
that can fail (device creation, the interface queries, output enumeration, output
description, duplication, staging-texture creation): when that step is the one that
fails, `Initialize` throws the error of that step with the failing `HRESULT`, and
leaves the session `Uninitialized`: `IsInitialized()` is false, both flags are false,
width and height are 0, and the device, context, channel, staging and desktop-texture
pointers are null.  The pointers are null because the objects were released: the
calls of `Initialize` end with the handler calling `Release()` on the channel (when
the duplication had succeeded) and on the context and the device (when the device
creation had succeeded), and over the whole call `Release()` is called exactly once
on every owned object held at the start and once on every one the call created. -/
theorem C5_failed_initialize_is_uninitialized (s : DesktopDuplicator) (i : Int)
    (d : InitDriver) (st : Step) (h : firstFailing d i = some st) :
    st ∈ initSteps ∧ FAILED (initStepHr d i st) = true ∧
    (Initialize s i d).result = Result.error (Error.hresult st (initStepHr d i st)) ∧
    Uninitialized (Initialize s i d).state ∧
    IsInitialized (Initialize s i d).state = false ∧
    (Initialize s i d).state.m_IsInitialized = false ∧
    (Initialize s i d).state.m_AccessLost = false ∧
    GetWidth (Initialize s i d).state = 0 ∧ GetHeight (Initialize s i d).state = 0 ∧
    (Initialize s i d).state.m_pD3D11Device = none ∧
    (Initialize s i d).state.m_pD3D11DeviceContext = none ∧
    (Initialize s i d).state.m_pDXGIOutputDuplication = none ∧
    (Initialize s i d).state.m_pStagingTexture = none ∧
    (Initialize s i d).trace =
      (ReleaseResources s).trace
        ++ (InitializeTry { (ReleaseResources s).state with m_OutputIndex := i } i d).trace
        ++ ((if st = Step.createStagingTexture then [Event.release .duplication] else [])
            ++ (if st = Step.createDevice then []
                else [Event.release .context, Event.release .device])) ∧
    (st = Step.createDevice ↔ FAILED d.createDevice = true) ∧
    (st = Step.createStagingTexture →
      FAILED (d.output (toUInt32 i)).duplicateOutput = false) ∧
    (Initialize s i d).trace.count (Event.release .device)
      = (if s.m_pD3D11Device.isSome then 1 else 0)
          + (if st = Step.createDevice then 0 else 1) ∧
    (Initialize s i d).trace.count (Event.release .context)
      = (if s.m_pD3D11DeviceContext.isSome then 1 else 0)
          + (if st = Step.createDevice then 0 else 1) ∧
    (Initialize s i d).trace.count (Event.release .duplication)
      = (if s.m_pDXGIOutputDuplication.isSome then 1 else 0)
          + (if st = Step.createStagingTexture then 1 else 0) ∧
    (Initialize s i d).trace.count (Event.release .stagingTexture)
      = (if s.m_pStagingTexture.isSome then 1 else 0) ∧
    (Initialize s i d).trace.count (Event.release .desktopTexture)
      = (if s.m_pDesktopTexture.isSome then 1 else 0) := by
  obtain ⟨hmem, hfail⟩ := firstFailing_mem d i st h
  obtain ⟨hr, hst⟩ := initialize_of_firstFailing s i d st h
  obtain ⟨htry, hdev, hdup, hhandler⟩ := initialize_failed_handler_trace s i d st h
  obtain ⟨c1, c2, c3, c4, c5⟩ := releaseResources_count s
  have htrace : (Initialize s i d).trace =
      (ReleaseResources s).trace
        ++ (InitializeTry { (ReleaseResources s).state with m_OutputIndex := i } i d).trace
        ++ ((if st = Step.createStagingTexture then [Event.release .duplication] else [])
            ++ (if st = Step.createDevice then []
                else [Event.release .context, Event.release .device])) := by
    rw [initialize_trace s i d, htry, hhandler]
  have t1 := initializeTry_count_owned { (ReleaseResources s).state with m_OutputIndex := i }
    i d (Event.release .device) rfl
  have t2 := initializeTry_count_owned { (ReleaseResources s).state with m_OutputIndex := i }
    i d (Event.release .context) rfl
  have t3 := initializeTry_count_owned { (ReleaseResources s).state with m_OutputIndex := i }
    i d (Event.release .duplication) rfl
  have t4 := initializeTry_count_owned { (ReleaseResources s).state with m_OutputIndex := i }
    i d (Event.release .stagingTexture) rfl
  have t5 := initializeTry_count_owned { (ReleaseResources s).state with m_OutputIndex := i }
    i d (Event.release .desktopTexture) rfl
  refine ⟨hmem, hfail, hr, ?_, ?_, ?_, ?_, ?_, ?_, ?_, ?_, ?_, ?_, htrace, hdev, hdup,
    ?_, ?_, ?_, ?_, ?_⟩
  any_goals (rw [hst]; simp [Uninitialized, ReleaseResources, IsInitialized, GetWidth, GetHeight])
  all_goals
    rw [htrace]
    simp only [List.count_append, c1, c2, c3, c4, c5, t1, t2, t3, t4, t5]
    by_cases h1 : st = Step.createDevice <;> by_cases h2 : st = Step.createStagingTexture <;>
      simp [h1, h2]

/-- Witness of C5: `Initialize(1)` on a driver with a single output fails at the
enumeration with `DXGI_ERROR_NOT_FOUND`, starting from a `Ready` session: the old
channel, staging texture, context and device are released at the start, the new
context and device by the handler. -/
theorem C5_failed_initialize_is_uninitialized_witness :
    firstFailing driverOk 1 = some Step.enumOutputs ∧
    (Initialize sessionReady 1 driverOk).result
      = Result.error (Error.hresult Step.enumOutputs (initStepHr driverOk 1 Step.enumOutputs)) ∧
    Uninitialized (Initialize sessionReady 1 driverOk).state ∧
    (Initialize sessionReady 1 driverOk).trace.count (Event.release .device)
      = (if sessionReady.m_pD3D11Device.isSome then 1 else 0)
          + (if Step.enumOutputs = Step.createDevice then 0 else 1) ∧
    (Initialize sessionReady 1 driverOk).trace.count (Event.release .device) = 2 ∧
    (Initialize sessionReady 1 driverOk).trace.count (Event.release .duplication) = 1 :=
  ⟨by decide,
    (C5_failed_initialize_is_uninitialized sessionReady 1 driverOk Step.enumOutputs
      (by decide)).2.2.1,
    (C5_failed_initialize_is_uninitialized sessionReady 1 driverOk Step.enumOutputs
      (by decide)).2.2.2.1,
    (C5_failed_initialize_is_uninitialized sessionReady 1 driverOk Step.enumOutputs
      (by decide)).2.2.2.2.2.2.2.2.2.2.2.2.2.2.2.2.1,
    by decide, by decide⟩

/-- With a row pitch of `2 ^ 31` the stride of the returned frame is not the row pitch:
on the 0 x 0 session the product `height * stride` is 0 and the call returns an empty
frame whose stride is `-2 ^ 31`. -/
theorem captureFrame_stride_wraps :
    Ready sessionEmptyRect ∧
    (CaptureFrame sessionEmptyRect 16 captureHugePitch).result
      = Result.ok (some { pixels := [], width := 0, height := 0, stride := -2147483648 }) := by
  decide

/-- C6, as stated, fails: on the reachable `Ready` session of height -1 every step of the
capture succeeds and `height * stride = -7680` does not overflow a 32-bit `int`, yet
`CaptureFrame` returns no frame: the size converted to `size_t` is beyond what
`resize` accepts and the call throws. -/
theorem C6_counterexample :
    ¬ ∀ (s : DesktopDuplicator) (t : Int) (d : CaptureDriver), Reachable s → Ready s →
        FAILED d.acquire = false → FAILED d.queryTexture = false →
        FAILED d.map = false → FAILED d.releaseFrame = false →
        wrapInt32 (s.m_OutputHeight * wrapInt32 (d.rowPitch : Int))
          = s.m_OutputHeight * wrapInt32 (d.rowPitch : Int) →
        ∃ frame : CapturedFrame,
          (CaptureFrame s t d).result = Result.ok (some frame) ∧
          frame.width = GetWidth s ∧ frame.height = GetHeight s ∧
          frame.stride = d.rowPitch ∧
          (frame.pixels.length : Int) = frame.height * frame.stride ∧
          (CaptureFrame s t d).state.m_TotalFramesCaptured
            = (s.m_TotalFramesCaptured + 1) % 2 ^ 64 ∧
          (CaptureFrame s t d).state.m_TotalErrors = s.m_TotalErrors ∧
          Ready (CaptureFrame s t d).state := by
  intro h
  obtain ⟨frame, hres, -⟩ :=
    h sessionNegativeHeight 16 captureOk
      (Reachable.init 0 driverNegativeHeight (Reachable.fresh 10000000 0))
      (by decide) (by decide) (by decide) (by decide) (by decide) (by decide)
  have hthrow : (CaptureFrame sessionNegativeHeight 16 captureOk).result
      = Result.error Error.lengthError := by decide
  rw [hthrow] at hres
  cases hres

/-- C6, amended: from `Ready`, when the acquire answers a frame and the texture query, the
map and the release all succeed, and the size computation is exact (the row pitch is
below `2 ^ 31`, and `height * stride` is not negative and does not overflow a 32-bit
`int`), the call `CaptureFrame` returns a frame whose width and height are `GetWidth()`
and `GetHeight()`, whose stride is the row pitch of the map and whose pixel buffer has
`height * stride` bytes; the captured-frame counter goes up by one (modulo `2 ^ 64`),
the error counter is unchanged and the session is still `Ready`. -/
theorem C6_successful_capture_frame (s : DesktopDuplicator) (hs : Ready s) (t : Int)
    (d : CaptureDriver) (ha : FAILED d.acquire = false) (hq : FAILED d.queryTexture = false)
    (hm : FAILED d.map = false) (hr : FAILED d.releaseFrame = false)
    (hx : FrameSizeExact s.m_OutputHeight d.rowPitch) :
    ∃ frame : CapturedFrame,
      (CaptureFrame s t d).result = Result.ok (some frame) ∧
      frame.width = GetWidth s ∧ frame.height = GetHeight s ∧
      frame.stride = d.rowPitch ∧
      (frame.pixels.length : Int) = frame.height * frame.stride ∧
      (CaptureFrame s t d).state.m_TotalFramesCaptured
        = (s.m_TotalFramesCaptured + 1) % 2 ^ 64 ∧
      (s.m_TotalFramesCaptured + 1 < 2 ^ 64 →
        (CaptureFrame s t d).state.m_TotalFramesCaptured = s.m_TotalFramesCaptured + 1) ∧
      (CaptureFrame s t d).state.m_TotalErrors = s.m_TotalErrors ∧
      Ready (CaptureFrame s t d).state ∧
      IsInitialized (CaptureFrame s t d).state = true := by
  obtain ⟨hp, hcount, hfits⟩ := frameSizeExact_count s.m_OutputHeight d.rowPitch hx
  have hready : Ready (CaptureFrame s t d).state := by
    rcases captureFrame_ready_next s hs t d with ⟨_, h1⟩ | ⟨h1, _⟩
    · exact h1
    · exact absurd h1 (not_failed_ne _ ha).2
  have hcap := captureFrame_frame s hs t d ha hq hm hfits hr
  refine ⟨{ pixels :=
              (List.range (toSizeT (wrapInt32 (s.m_OutputHeight * wrapInt32 (d.rowPitch : Int))))).map
                d.pData
            width := s.m_OutputWidth
            height := s.m_OutputHeight
            stride := wrapInt32 (d.rowPitch : Int) },
    ?_, rfl, rfl, hp, ?_, ?_, ?_, ?_, hready, isInitialized_of_ready _ hready⟩
  · rw [hcap]
  · simp only [List.length_map, List.length_range]
    rw [hcount, hp]
  · rw [hcap]; rfl
  · intro hlt
    rw [hcap]
    exact Nat.mod_eq_of_lt hlt
  · rw [hcap]

/-- Witness of C6: a frame of a 1920 x 1080 session with a row pitch of 7680. -/
theorem C6_successful_capture_frame_witness :
    Ready sessionReady ∧ FAILED captureOk.acquire = false ∧
    FAILED captureOk.queryTexture = false ∧ FAILED captureOk.map = false ∧
    FAILED captureOk.releaseFrame = false ∧
    FrameSizeExact sessionReady.m_OutputHeight captureOk.rowPitch ∧
    ∃ frame : CapturedFrame,
      (CaptureFrame sessionReady 16 captureOk).result = Result.ok (some frame) ∧
      frame.width = 1920 ∧ frame.height = 1080 ∧ frame.stride = 7680 ∧
      (frame.pixels.length : Int) = 1080 * 7680 := by
  refine ⟨by decide, by decide, by decide, by decide, by decide, by decide, ?_⟩
  obtain ⟨frame, h1, h2, h3, h4, h5, -⟩ :=
    C6_successful_capture_frame sessionReady (by decide) 16 captureOk (by decide) (by decide)
      (by decide) (by decide) (by decide)
  have hw : GetWidth sessionReady = 1920 := by decide
  have hh : GetHeight sessionReady = 1080 := by decide
  have hpitch : ((captureOk.rowPitch : Nat) : Int) = 7680 := by decide
  refine ⟨frame, h1, h2.trans hw, h3.trans hh, h4.trans hpitch, ?_⟩
  rw [h5, h3, h4, hh, hpitch]

theorem reachable_sessionReady : Reachable sessionReady :=
  Reachable.init 0 driverOk (Reachable.fresh 10000000 0)

theorem reachable_sessionLost : Reachable sessionLost :=
  Reachable.capture 16 captureLost reachable_sessionReady

theorem reachable_apply (s : DesktopDuplicator) (h : Reachable s) (op : Op) :
    Reachable (op.apply s) := by
  cases op with
  | init i d => exact Reachable.init i d h
  | reinit d => exact Reachable.reinit d h
  | capture t d => exact Reachable.capture t d h

theorem reachable_runOps (s : DesktopDuplicator) (h : Reachable s) (ops : List Op) :
    Reachable (runOps s ops) := by
  induction ops generalizing s with
  | nil => exact h
  | cons op rest ih => exact ih _ (reachable_apply s h op)

/-- `Initialize(i)` records `i`, whether it succeeds or fails. -/
theorem initialize_index (s : DesktopDuplicator) (i : Int) (d : InitDriver) :
    (Initialize s i d).state.m_OutputIndex = i := by
  cases h : firstFailing d i with
  | none => rw [(initialize_of_no_failing s i d h).2]
  | some st => rw [(initialize_of_firstFailing s i d st h).2]

/-- On a reachable object `CaptureFrame` keeps the recorded index. -/
theorem captureFrame_index (s : DesktopDuplicator) (h : Reachable s) (t : Int)
    (d : CaptureDriver) :
    (CaptureFrame s t d).state.m_OutputIndex = s.m_OutputIndex := by
  rcases reachable_state s h with hu | hr | hl
  · rw [captureFrame_of_not_initialized s hu.1]
  · exact (captureFrame_ready_state s hr t d).1.2.2.2.2.2.2.2.1
  · rw [captureFrame_of_accessLost s hl]

/-- The index an object holds after a history is the one the history recorded. -/
theorem runOps_index (s : DesktopDuplicator) (h : Reachable s) (ops : List Op) :
    (runOps s ops).m_OutputIndex =
      ops.foldl (fun k op => match op with
        | .init i _ => i
        | _ => k) s.m_OutputIndex := by
  induction ops generalizing s with
  | nil => rfl
  | cons op rest ih =>
    have hstep := ih (op.apply s) (reachable_apply s h op)
    simp only [runOps, List.foldl_cons] at hstep ⊢
    rw [hstep]
    cases op with
    | init i d => simp only [Op.apply, initialize_index]
    | reinit d => simp only [Op.apply, reinitialize_eq, initialize_index]
    | capture t d => simp only [Op.apply, captureFrame_index s h]

/-- C8: on the object any history of operations since construction leaves,
`Reinitialize()` has the same outcome (same result or error, same final object, same
calls) as `Initialize(k)` with the same driver answers, where `k` is the output index
of the most recent `Initialize` call of the history (0 if there was none).  From
`AccessLost`, a successful `Reinitialize` ends `Ready` with `IsInitialized()` true and
the output index unchanged; a failed one ends `Uninitialized` with the access-lost
flag cleared, not in `AccessLost`. -/
theorem C8_reinitialize_is_initialize_at_recorded_index (frequency now : Int)
    (ops : List Op) (d : InitDriver) :
    Reinitialize (runOps (DesktopDuplicator.construct frequency now) ops) d
      = Initialize (runOps (DesktopDuplicator.construct frequency now) ops)
          (recordedIndex ops) d ∧
    (AccessLost (runOps (DesktopDuplicator.construct frequency now) ops) →
      ( Reinitialize (runOps (DesktopDuplicator.construct frequency now) ops) d).result
          = Result.ok () →
      Ready ( Reinitialize (runOps (DesktopDuplicator.construct frequency now) ops) d).state ∧
      IsInitialized
        ( Reinitialize (runOps (DesktopDuplicator.construct frequency now) ops) d).state = true ∧
      ( Reinitialize (runOps (DesktopDuplicator.construct frequency now) ops) d).state.m_OutputIndex
        = (runOps (DesktopDuplicator.construct frequency now) ops).m_OutputIndex) ∧
    (AccessLost (runOps (DesktopDuplicator.construct frequency now) ops) →
      ∀ e : Error,
      ( Reinitialize (runOps (DesktopDuplicator.construct frequency now) ops) d).result
          = Result.error e →
      Uninitialized
        ( Reinitialize (runOps (DesktopDuplicator.construct frequency now) ops) d).state ∧
      ( Reinitialize (runOps (DesktopDuplicator.construct frequency now) ops) d).state.m_AccessLost
        = false ∧
      ¬ AccessLost
        ( Reinitialize (runOps (DesktopDuplicator.construct frequency now) ops) d).state ∧
      IsInitialized
        ( Reinitialize (runOps (DesktopDuplicator.construct frequency now) ops) d).state
          = false) := by
  generalize hs : runOps (DesktopDuplicator.construct frequency now) ops = s
  have hidx : s.m_OutputIndex = recordedIndex ops := by
    rw [← hs, runOps_index _ (Reachable.fresh frequency now) ops]
    rfl
  refine ⟨by rw [reinitialize_eq, hidx], ?_, ?_⟩
  · intro _ hok
    rw [reinitialize_eq] at hok ⊢
    rcases initialize_state s s.m_OutputIndex d with ⟨⟨e, he⟩, _⟩ | ⟨_, hr⟩
    · rw [he] at hok; cases hok
    · exact ⟨hr, isInitialized_of_ready _ hr, initialize_index s s.m_OutputIndex d⟩
  · intro _ e herr
    rw [reinitialize_eq] at herr ⊢
    rcases initialize_state s s.m_OutputIndex d with ⟨_, hu⟩ | ⟨hr, _⟩
    · refine ⟨hu, hu.2.1, ?_, ?_⟩
      · intro hl; have h1 := hl.1; rw [hu.1] at h1; cases h1
      · simp [IsInitialized, hu.1]
    · rw [hr] at herr; cases herr

/-- Example of C8: after `Initialize(0)` and a capture that observed `Lost`, the call
`Reinitialize()` is `Initialize(0)`. -/
theorem C8_reinitialize_is_initialize_at_recorded_index_witness :
    Reinitialize
        (runOps (DesktopDuplicator.construct 10000000 0)
          [Op.init 0 driverOk, Op.capture 16 captureLost]) driverOk
      = Initialize
          (runOps (DesktopDuplicator.construct 10000000 0)
            [Op.init 0 driverOk, Op.capture 16 captureLost])
          (recordedIndex [Op.init 0 driverOk, Op.capture 16 captureLost]) driverOk :=
  (C8_reinitialize_is_initialize_at_recorded_index 10000000 0
    [Op.init 0 driverOk, Op.capture 16 captureLost] driverOk).1

/-- C9, as stated, fails: the session that observed `Lost` is reachable and not `Ready`,
and its `GetWidth()` and `GetHeight()` still answer 1920 and 1080. -/
theorem C9_counterexample :
    ¬ ∀ s : DesktopDuplicator, Reachable s → ¬ Ready s →
        GetWidth s = 0 ∧ GetHeight s = 0 := by
  intro h
  have h1 := (h sessionLost reachable_sessionLost (by decide)).1
  revert h1
  decide

/-- C9, amended: in every reachable state that is neither `Ready` nor `AccessLost`
(never initialized, after a failed `Initialize`, after teardown) the session is
`Uninitialized` and `GetWidth()` and `GetHeight()` both return 0; a `CaptureFrame` call
that observes `Lost` in `Ready` moves to `AccessLost` and leaves `GetWidth()` and
`GetHeight()` as they were. -/
theorem C9_width_height_outside_ready (s : DesktopDuplicator) (h : Reachable s) :
    (¬ Ready s → ¬ AccessLost s →
      Uninitialized s ∧ GetWidth s = 0 ∧ GetHeight s = 0) ∧
    (Ready s → ∀ (t : Int) (d : CaptureDriver), d.acquire = DXGI_ERROR_ACCESS_LOST →
      AccessLost (CaptureFrame s t d).state ∧
      GetWidth (CaptureFrame s t d).state = GetWidth s ∧
      GetHeight (CaptureFrame s t d).state = GetHeight s) := by
  constructor
  · intro hnr hnl
    rcases reachable_state s h with hu | hr | hl
    · exact ⟨hu, hu.2.2.1, hu.2.2.2.1⟩
    · exact absurd hr hnr
    · exact absurd hl hnl
  · intro hr t d hd
    have hsame := (captureFrame_ready_state s hr t d).1
    rcases captureFrame_ready_next s hr t d with ⟨h1, _⟩ | ⟨_, h1⟩
    · exact absurd hd h1
    · exact ⟨h1, hsame.2.2.2.2.2.1, hsame.2.2.2.2.2.2.1⟩

/-- Witness of C9 (amended): a session whose `Initialize(1)` failed reports 0 x 0, and
the 1920 x 1080 session keeps its width across the loss. -/
theorem C9_width_height_outside_ready_witness :
    Reachable (Initialize session0 1 driverOk).state ∧ Reachable sessionReady ∧
    GetWidth (Initialize session0 1 driverOk).state = 0 ∧
    GetWidth (CaptureFrame sessionReady 16 captureLost).state = GetWidth sessionReady :=
  ⟨Reachable.init 1 driverOk (Reachable.fresh 10000000 0), reachable_sessionReady,
    ((C9_width_height_outside_ready (Initialize session0 1 driverOk).state
      (Reachable.init 1 driverOk (Reachable.fresh 10000000 0))).1
        (by decide) (by decide)).2.1,
    ((C9_width_height_outside_ready sessionReady reachable_sessionReady).2
      (by decide) 16 captureLost (by decide)).2.1⟩

/-- C10, as stated, fails: on a driver whose output reports an empty desktop rectangle
while every call succeeds, `Initialize(0)` returns without throwing and `GetWidth()`
is 0. -/
theorem C10_counterexample :
    ¬ ∀ (s : DesktopDuplicator) (i : Int) (d : InitDriver),
        (Initialize s i d).result = Result.ok () →
        IsInitialized (Initialize s i d).state = true ∧
        (Initialize s i d).state.m_AccessLost = false ∧
        0 < GetWidth (Initialize s i d).state ∧ 0 < GetHeight (Initialize s i d).state := by
  intro h
  have h1 := (h session0 0 driverEmptyRect (by decide)).2.2.1
  revert h1
  decide

theorem firstFailing_none_staging (d : InitDriver) (i : Int)
    (h : firstFailing d i = none) :
    FAILED (initStepHr d i Step.createStagingTexture) = false := by
  unfold firstFailing at h
  rw [List.find?_eq_none] at h
  have h1 := h Step.createStagingTexture (by simp [initSteps])
  simpa using h1

theorem wrapInt32_pos_of_toUInt32 (x : Int)
    (h0 : toUInt32 (wrapInt32 x) ≠ 0) (h1 : ¬ 2 ^ 31 ≤ toUInt32 (wrapInt32 x)) :
    0 < wrapInt32 x := by
  unfold toUInt32 wrapInt32 at *
  omega

/-- C10, amended: for every starting object and every output index `i`, if
`Initialize(i)` returns without throwing then `IsInitialized()` is true, the
access-lost flag is false, and `GetWidth()` and `GetHeight()` are the differences
`right - left` and `bottom - top` of the desktop coordinates the output reported, in
32-bit arithmetic.  They are positive whenever the reported rectangle is not empty
(`left < right`, `top < bottom`, differences below `2 ^ 31`), and also whenever the
driver refuses to create a staging texture with a dimension that is zero or not
below `2 ^ 31`; the code itself makes no such check. -/
theorem C10_initialize_success_resolution (s : DesktopDuplicator) (i : Int)
    (d : InitDriver) (h : (Initialize s i d).result = Result.ok ()) :
    IsInitialized (Initialize s i d).state = true ∧
    (Initialize s i d).state.m_AccessLost = false ∧
    GetWidth (Initialize s i d).state
      = wrapInt32 ((d.output (toUInt32 i)).desktopCoordinates.right
          - (d.output (toUInt32 i)).desktopCoordinates.left) ∧
    GetHeight (Initialize s i d).state
      = wrapInt32 ((d.output (toUInt32 i)).desktopCoordinates.bottom
          - (d.output (toUInt32 i)).desktopCoordinates.top) ∧
    ((d.output (toUInt32 i)).desktopCoordinates.left
        < (d.output (toUInt32 i)).desktopCoordinates.right →
      (d.output (toUInt32 i)).desktopCoordinates.right
        - (d.output (toUInt32 i)).desktopCoordinates.left < 2 ^ 31 →
      0 < GetWidth (Initialize s i d).state) ∧
    ((d.output (toUInt32 i)).desktopCoordinates.top
        < (d.output (toUInt32 i)).desktopCoordinates.bottom →
      (d.output (toUInt32 i)).desktopCoordinates.bottom
        - (d.output (toUInt32 i)).desktopCoordinates.top < 2 ^ 31 →
      0 < GetHeight (Initialize s i d).state) ∧
    ((∀ w h : Nat, w = 0 ∨ h = 0 ∨ 2 ^ 31 ≤ w ∨ 2 ^ 31 ≤ h →
        FAILED (d.createTexture2D w h) = true) →
      0 < GetWidth (Initialize s i d).state ∧ 0 < GetHeight (Initialize s i d).state) := by
  have hnone : firstFailing d i = none := by
    cases hf : firstFailing d i with
    | none => rfl
    | some st =>
      rw [(initialize_of_firstFailing s i d st hf).1] at h
      cases h
  obtain ⟨_, hst⟩ := initialize_of_no_failing s i d hnone
  have hstaging := firstFailing_none_staging d i hnone
  rw [hst]
  refine ⟨by simp [IsInitialized], rfl, rfl, rfl, ?_, ?_, ?_⟩
  · intro h1 h2
    simp only [GetWidth]
    have hw := (wrapInt32_eq_iff ((d.output (toUInt32 i)).desktopCoordinates.right
      - (d.output (toUInt32 i)).desktopCoordinates.left)).2 ⟨by omega, h2⟩
    rw [hw]; omega
  · intro h1 h2
    simp only [GetHeight]
    have hw := (wrapInt32_eq_iff ((d.output (toUInt32 i)).desktopCoordinates.bottom
      - (d.output (toUInt32 i)).desktopCoordinates.top)).2 ⟨by omega, h2⟩
    rw [hw]; omega
  · intro hrej
    simp only [GetWidth, GetHeight]
    simp only [initStepHr] at hstaging
    constructor
    · apply wrapInt32_pos_of_toUInt32
      · intro h0
        rw [hrej _ _ (Or.inl h0)] at hstaging
        cases hstaging
      · intro h0
        rw [hrej _ _ (Or.inr (Or.inr (Or.inl h0)))] at hstaging
        cases hstaging
    · apply wrapInt32_pos_of_toUInt32
      · intro h0
        rw [hrej _ _ (Or.inr (Or.inl h0))] at hstaging
        cases hstaging
      · intro h0
        rw [hrej _ _ (Or.inr (Or.inr (Or.inr h0)))] at hstaging
        cases hstaging

/-- Witness of C10 (amended): `Initialize(0)` on the 1920 x 1080 output, with a driver
that takes any staging texture and with one that validates its dimensions. -/
theorem C10_initialize_success_resolution_witness :
    (Initialize session0 0 driverOk).result = Result.ok () ∧
    (Initialize session0 0 driverValidating).result = Result.ok () ∧
    IsInitialized (Initialize session0 0 driverOk).state = true ∧
    0 < GetWidth (Initialize session0 0 driverOk).state ∧
    0 < GetHeight (Initialize session0 0 driverOk).state ∧
    0 < GetWidth (Initialize session0 0 driverValidating).state ∧
    0 < GetHeight (Initialize session0 0 driverValidating).state :=
  ⟨by decide, by decide,
    (C10_initialize_success_resolution session0 0 driverOk (by decide)).1,
    (C10_initialize_success_resolution session0 0 driverOk (by decide)).2.2.2.2.1
      (by decide) (by decide),
    (C10_initialize_success_resolution session0 0 driverOk (by decide)).2.2.2.2.2.1
      (by decide) (by decide),
    (C10_initialize_success_resolution session0 0 driverValidating (by decide)).2.2.2.2.2.2
      (by
        intro w h hbad
        simp only [driverValidating, if_pos hbad]
        decide)⟩

/-- From `Ready`, the error counter after a capture that meets `Lost` and after one that
meets a transient error; the captured-frame counter moves in neither. -/
theorem captureFrame_error_increments (s : DesktopDuplicator) (h : Ready s) (t : Int)
    (d : CaptureDriver) :
    (d.acquire = DXGI_ERROR_ACCESS_LOST →
      (CaptureFrame s t d).state.m_TotalErrors = incr64 s.m_TotalErrors ∧
      (CaptureFrame s t d).state.m_TotalFramesCaptured = s.m_TotalFramesCaptured) ∧
    (TransientError d.acquire →
      (CaptureFrame s t d).state.m_TotalErrors = incr64 (incr64 s.m_TotalErrors) ∧
      (CaptureFrame s t d).state.m_TotalFramesCaptured = s.m_TotalFramesCaptured) := by
  constructor
  · intro hd
    rw [captureFrame_lost s h t d hd]
    exact ⟨rfl, rfl⟩
  · intro hd
    rw [captureFrame_transient s h t d hd]
    exact ⟨rfl, rfl⟩

/-- C11, evaluated on the 1920 x 1080 session with both counters at 0: a capture whose
acquire answers `Lost` leaves the error counter at 1, a capture whose acquire fails
with `E_FAIL` leaves it at 2 (line 137 counts the error and the handler at line 192
counts it again); the captured-frame counter stays at 0 in both. -/
theorem C11_transient_error_counted_twice :
    Ready sessionReady ∧ captureLost.acquire = DXGI_ERROR_ACCESS_LOST ∧
    TransientError captureError.acquire ∧
    sessionReady.m_TotalErrors = 0 ∧ sessionReady.m_TotalFramesCaptured = 0 ∧
    (CaptureFrame sessionReady 16 captureLost).state.m_TotalErrors = 1 ∧
    (CaptureFrame sessionReady 16 captureError).state.m_TotalErrors = 2 ∧
    (CaptureFrame sessionReady 16 captureLost).state.m_TotalFramesCaptured = 0 ∧
    (CaptureFrame sessionReady 16 captureError).state.m_TotalFramesCaptured = 0 := by
  decide

/-- C12, as stated, fails: on the 1920 x 1080 session, when the acquire gives a frame and
the `ReleaseFrame` of the main path fails, `ReleaseFrame` is called twice. -/
theorem C12_counterexample :
    ¬ ∀ (s : DesktopDuplicator) (t : Int) (d : CaptureDriver), Ready s →
        FAILED d.acquire = false →
        (CaptureFrame s t d).trace.count Event.releaseFrame = 1 := by
  intro h
  have h1 := h sessionReady 16 captureReleaseFails (by decide) (by decide)
  revert h1
  decide

/-- C12, amended: from `Ready`, in a `CaptureFrame` call whose acquire gives a frame,
`ReleaseFrame` is called on the duplication channel before the call returns or throws,
and it is the last call made: exactly once when every step succeeds and when the
texture query, the staging map or the sizing of the pixel buffer fails (so it is
called when the copy/map step fails), and twice when the `ReleaseFrame` of the main
path itself fails, since the handler then calls it again. -/
theorem C12_release_frame_after_frame (s : DesktopDuplicator) (hs : Ready s) (t : Int)
    (d : CaptureDriver) (ha : FAILED d.acquire = false) :
    (CaptureFrame s t d).trace.count Event.releaseFrame =
      (if FAILED d.queryTexture = false ∧ FAILED d.map = false ∧
          ¬ vectorMaxSize
              < toSizeT (wrapInt32 (s.m_OutputHeight * wrapInt32 (d.rowPitch : Int))) ∧
          FAILED d.releaseFrame = true
        then 2 else 1) ∧
    (CaptureFrame s t d).trace.getLast? = some Event.releaseFrame ∧
    (FAILED d.queryTexture = true ∨ FAILED d.map = true →
      (CaptureFrame s t d).trace.count Event.releaseFrame = 1) ∧
    ((CaptureFrame s t d).result ≠ Result.error (Error.hresult Step.releaseFrame d.releaseFrame) →
      (CaptureFrame s t d).trace.count Event.releaseFrame = 1) := by
  cases hq : FAILED d.queryTexture
  swap
  · rw [captureFrame_queryTexture_failed s hs t d ha hq]
    simp
  cases hm : FAILED d.map
  swap
  · rw [captureFrame_map_failed s hs t d ha hq hm]
    simp
  by_cases hn : vectorMaxSize <
      toSizeT (wrapInt32 (s.m_OutputHeight * wrapInt32 (d.rowPitch : Int)))
  · rw [captureFrame_length_error s hs t d ha hq hm hn]
    simp [hn]
  cases hr : FAILED d.releaseFrame
  swap
  · rw [captureFrame_release_failed s hs t d ha hq hm hn hr]
    simp [hn]
  rw [captureFrame_frame s hs t d ha hq hm hn hr]
  simp [hn]

/-- Witness of C12 (amended): the staging map fails on the 1920 x 1080 session. -/
theorem C12_release_frame_after_frame_witness :
    Ready sessionReady ∧ FAILED captureMapFails.acquire = false ∧
    (CaptureFrame sessionReady 16 captureMapFails).trace.count Event.releaseFrame = 1 ∧
    (CaptureFrame sessionReady 16 captureMapFails).trace.getLast? = some Event.releaseFrame :=
  ⟨by decide, by decide,
    (C12_release_frame_after_frame sessionReady (by decide) 16 captureMapFails
      (by decide)).2.2.1 (Or.inr (by decide)),
    (C12_release_frame_after_frame sessionReady (by decide) 16 captureMapFails
      (by decide)).2.1⟩

/-- The calls of `ReleaseResources` are those of `releaseOrder` for the pointers that
are not null, in that order. -/
theorem releaseResources_trace_sublist (s : DesktopDuplicator) :
    (ReleaseResources s).trace.Sublist releaseOrder := by
  simp only [ReleaseResources, releaseOrder]
  cases s.m_pDXGIOutputDuplication <;> cases s.m_pStagingTexture <;>
    cases s.m_pDesktopTexture <;> cases s.m_pD3D11DeviceContext <;>
    cases s.m_pD3D11Device <;> simp only [SAFE_RELEASE] <;> decide

/-- In `ReleaseResources` no object is released after one that follows it in
`releaseOrder`. -/
theorem releaseResources_never_after (s : DesktopDuplicator) :
    releasedAfter .duplication .stagingTexture (ReleaseResources s).trace = false ∧
    releasedAfter .duplication .context (ReleaseResources s).trace = false ∧
    releasedAfter .stagingTexture .context (ReleaseResources s).trace = false ∧
    releasedAfter .context .device (ReleaseResources s).trace = false := by
  simp only [ReleaseResources]
  cases s.m_pDXGIOutputDuplication <;> cases s.m_pStagingTexture <;>
    cases s.m_pDesktopTexture <;> cases s.m_pD3D11DeviceContext <;>
    cases s.m_pD3D11Device <;> simp only [SAFE_RELEASE] <;> decide

/-- With the channel and the staging texture both held, `ReleaseResources` releases the
staging texture after the channel. -/
theorem releaseResources_staging_after_channel (s : DesktopDuplicator)
    (hd : s.m_pDXGIOutputDuplication.isSome = true)
    (hs : s.m_pStagingTexture.isSome = true) :
    releasedAfter .stagingTexture .duplication (ReleaseResources s).trace = true := by
  simp only [ReleaseResources]
  cases h1 : s.m_pDXGIOutputDuplication <;> cases h2 : s.m_pStagingTexture <;>
    cases s.m_pDesktopTexture <;> cases s.m_pD3D11DeviceContext <;>
    cases s.m_pD3D11Device <;> simp_all [SAFE_RELEASE] <;> decide

/-- C13, as stated, fails: tearing down the 1920 x 1080 session releases the staging
texture after the duplication channel. -/
theorem C13_counterexample :
    ¬ ∀ s : DesktopDuplicator,
        releasedAfter .stagingTexture .duplication (ReleaseResources s).trace = false := by
  intro h
  have h1 := h sessionReady
  revert h1
  decide

/-- C13, amended: whenever the session releases the objects it owns it does so through
`ReleaseResources` (teardown, the start of every `Initialize`, the handler of a failed
`Initialize`; the `try` block of `Initialize` releases none of them), and there the
`Release()` calls come in the order duplication channel, staging texture, desktop
texture, device context, device: the channel is never released after the staging
texture or the context, the staging texture never after the context, the context
never after the device, and with both held the staging texture is released after the
channel. -/
theorem C13_release_order_of_owned_objects (s : DesktopDuplicator) (i : Int)
    (d : InitDriver) :
    (ReleaseResources s).trace.Sublist releaseOrder ∧
    releasedAfter .duplication .stagingTexture (ReleaseResources s).trace = false ∧
    releasedAfter .duplication .context (ReleaseResources s).trace = false ∧
    releasedAfter .stagingTexture .context (ReleaseResources s).trace = false ∧
    releasedAfter .context .device (ReleaseResources s).trace = false ∧
    (s.m_pDXGIOutputDuplication.isSome = true → s.m_pStagingTexture.isSome = true →
      releasedAfter .stagingTexture .duplication (ReleaseResources s).trace = true) ∧
    (Initialize s i d).trace =
      (ReleaseResources s).trace
        ++ (InitializeTry { (ReleaseResources s).state with m_OutputIndex := i } i d).trace
        ++ (match (InitializeTry { (ReleaseResources s).state with m_OutputIndex := i } i d).result with
            | .ok _ => []
            | .error _ =>
              (ReleaseResources
                (InitializeTry { (ReleaseResources s).state with m_OutputIndex := i } i d).state).trace) ∧
    (∀ e ∈ (InitializeTry { (ReleaseResources s).state with m_OutputIndex := i } i d).trace,
      e.releasesOwned = false) := by
  obtain ⟨h1, h2, h3, h4⟩ := releaseResources_never_after s
  exact ⟨releaseResources_trace_sublist s, h1, h2, h3, h4,
    releaseResources_staging_after_channel s, initialize_trace s i d,
    initializeTry_releases_no_owned _ i d⟩

/-- Example of C13 (amended): the calls of tearing down the 1920 x 1080 session and of an
`Initialize(1)` on it that fails at the output enumeration. -/
theorem C13_release_order_of_owned_objects_witness :
    (ReleaseResources sessionReady).trace.Sublist releaseOrder ∧
    (ReleaseResources sessionReady).trace
      = [Event.release .duplication, Event.release .stagingTexture,
          Event.release .context, Event.release .device] ∧
    (Initialize sessionReady 1 driverOk).trace
      = [Event.release .duplication, Event.release .stagingTexture,
          Event.release .context, Event.release .device,
          Event.d3d11CreateDevice, Event.queryDXGIDevice, Event.getAdapter,
          Event.release .dxgiDevice, Event.getFactory, Event.release .adapter,
          Event.enumOutputs 1, Event.release .factory,
          Event.release .context, Event.release .device] :=
  ⟨(C13_release_order_of_owned_objects sessionReady 1 driverOk).1, by decide, by decide⟩

/-- From `Ready`, `CaptureFrame` never throws the not-initialized error. -/
theorem captureFrame_ready_result (s : DesktopDuplicator) (h : Ready s) (t : Int)
    (d : CaptureDriver) :
    (CaptureFrame s t d).result ≠ Result.error Error.notInitialized := by
  by_cases hl : d.acquire = DXGI_ERROR_ACCESS_LOST
  · rw [captureFrame_lost s h t d hl]; simp
  by_cases ht : d.acquire = DXGI_ERROR_WAIT_TIMEOUT
  · rw [captureFrame_timeout s h t d ht]; simp
  cases ha : FAILED d.acquire
  swap
  · rw [captureFrame_transient s h t d ⟨ha, ht, hl⟩]; simp
  cases hq : FAILED d.queryTexture
  swap
  · rw [captureFrame_queryTexture_failed s h t d ha hq]; simp
  cases hm : FAILED d.map
  swap
  · rw [captureFrame_map_failed s h t d ha hq hm]; simp
  by_cases hn : vectorMaxSize <
      toSizeT (wrapInt32 (s.m_OutputHeight * wrapInt32 (d.rowPitch : Int)))
  · rw [captureFrame_length_error s h t d ha hq hm hn]; simp
  cases hr : FAILED d.releaseFrame
  swap
  · rw [captureFrame_release_failed s h t d ha hq hm hn hr]; simp
  rw [captureFrame_frame s h t d ha hq hm hn hr]; simp

/-- C14: in every object reachable from construction by `Initialize`, `Reinitialize` and
`CaptureFrame` calls (and teardown) with any driver answers, between calls: the
initialized flag is true exactly when the device, context, duplication-channel and
staging-texture pointers are all non-null; the four are all held or all null; the
desktop-texture pointer is null; the access-lost flag implies the initialized flag;
so the not-initialized guard of `CaptureFrame` is the negation of the initialized
flag, and `CaptureFrame` throws the not-initialized error exactly when the flag is
false. -/
theorem C14_reachable_invariant (s : DesktopDuplicator) (h : Reachable s) :
    (s.m_IsInitialized = true ↔
      (s.m_pD3D11Device.isSome = true ∧ s.m_pD3D11DeviceContext.isSome = true ∧
        s.m_pDXGIOutputDuplication.isSome = true ∧ s.m_pStagingTexture.isSome = true)) ∧
    ((s.m_pD3D11Device.isSome = true ∧ s.m_pD3D11DeviceContext.isSome = true ∧
        s.m_pDXGIOutputDuplication.isSome = true ∧ s.m_pStagingTexture.isSome = true) ∨
      (s.m_pD3D11Device = none ∧ s.m_pD3D11DeviceContext = none ∧
        s.m_pDXGIOutputDuplication = none ∧ s.m_pStagingTexture = none)) ∧
    s.m_pDesktopTexture = none ∧
    (s.m_AccessLost = true → s.m_IsInitialized = true) ∧
    ((!s.m_IsInitialized || s.m_pDXGIOutputDuplication.isNone
        || s.m_pD3D11DeviceContext.isNone || s.m_pStagingTexture.isNone)
      = !s.m_IsInitialized) ∧
    (∀ (t : Int) (d : CaptureDriver),
      (CaptureFrame s t d).result = Result.error Error.notInitialized ↔
        s.m_IsInitialized = false) := by
  rcases reachable_state s h with hu | hr | hl
  · obtain ⟨h1, h2, -, -, h5, h6, h7, h8, h9⟩ := hu
    refine ⟨by simp [h1, h5], Or.inr ⟨h5, h6, h7, h8⟩, h9, by simp [h2], by simp [h1], ?_⟩
    intro t d
    rw [captureFrame_of_not_initialized s h1]
    simp [h1]
  · have hg := ready_guard s hr
    have hres := captureFrame_ready_result s hr
    obtain ⟨h1, h2, h3, h4, h5, h6, h7⟩ := hr
    refine ⟨by simp [h1, h3, h4, h5, h6], Or.inl ⟨h3, h4, h5, h6⟩, h7, by simp [h2],
      by rw [hg]; simp [h1], ?_⟩
    intro t d
    simp [h1, hres t d]
  · have hg := accessLost_guard s hl
    have hcap := captureFrame_of_accessLost s hl
    obtain ⟨h1, h2, h3, h4, h5, h6, h7⟩ := hl
    refine ⟨by simp [h1, h3, h4, h5, h6], Or.inl ⟨h3, h4, h5, h6⟩, h7, fun _ => h1,
      by rw [hg]; simp [h1], ?_⟩
    intro t d
    rw [hcap t d]
    simp [h1]

/-- Witness of C14: the session that observed `Lost`, reached by `Initialize(0)` and one
capture, has the initialized flag and the access-lost flag set and its four objects
held. -/
theorem C14_reachable_invariant_witness :
    Reachable
      (runOps (DesktopDuplicator.construct 10000000 0)
        [Op.init 0 driverOk, Op.capture 16 captureLost]) ∧
    (runOps (DesktopDuplicator.construct 10000000 0)
        [Op.init 0 driverOk, Op.capture 16 captureLost]).m_pDesktopTexture = none ∧
    ((CaptureFrame
        (runOps (DesktopDuplicator.construct 10000000 0)
          [Op.init 0 driverOk, Op.capture 16 captureLost]) 16 captureOk).result
        = Result.error Error.notInitialized ↔
      (runOps (DesktopDuplicator.construct 10000000 0)
        [Op.init 0 driverOk, Op.capture 16 captureLost]).m_IsInitialized = false) :=
  ⟨reachable_runOps (DesktopDuplicator.construct 10000000 0) (Reachable.fresh 10000000 0)
      [Op.init 0 driverOk, Op.capture 16 captureLost],
    (C14_reachable_invariant
      (runOps (DesktopDuplicator.construct 10000000 0)
        [Op.init 0 driverOk, Op.capture 16 captureLost])
      (reachable_runOps (DesktopDuplicator.construct 10000000 0) (Reachable.fresh 10000000 0)
        [Op.init 0 driverOk, Op.capture 16 captureLost])).2.2.1,
    (C14_reachable_invariant
      (runOps (DesktopDuplicator.construct 10000000 0)
        [Op.init 0 driverOk, Op.capture 16 captureLost])
      (reachable_runOps (DesktopDuplicator.construct 10000000 0) (Reachable.fresh 10000000 0)
        [Op.init 0 driverOk, Op.capture 16 captureLost])).2.2.2.2.2 16 captureOk⟩
